import Mathlib

/-!
Shallow embedding of the normalization / deduplication / quality-gating
pipeline of the `jobs` scraper (files `scraper/pipeline/normalizer.py`,
`scraper/pipeline/quality.py`, `scraper/pipeline/deduper.py`,
`scraper/db.py`, `scraper/adapters/base.py`, `scraper/config.py`).

Python strings are modelled as `List Char`; the repository only feeds
ASCII-relevant operations (`str.lower`, `str.strip`, the regex `\s+`)
into the claims, so the character class and case table are the ASCII
ones, written out explicitly below.  Machine integers do not occur: the
interesting arithmetic (epoch timestamps) is done on `Int` exactly as
CPython does it on unbounded `int`, with the two float-overflow
boundaries of the timestamp path made explicit.
-/

/-- Python string model: a list of characters. -/
abbrev PyStr := List Char

/-- Convenience coercion from Lean string literals. -/
def S (s : String) : PyStr := s.toList

/-- The characters matched by the regex class `\s` and by `str.strip()`
for the ASCII range: space, tab, newline, carriage return, vertical tab,
form feed. -/
def pyIsSpace (c : Char) : Bool :=
  c = ' ' || c = '\t' || c = '\n' || c = '\r' || c = '\x0b' || c = '\x0c'

/-- ASCII case folding as done by `str.lower()` on the ASCII range. -/
def pyToLower (c : Char) : Char :=
  if 'A' ≤ c && c ≤ 'Z' then Char.ofNat (c.toNat + 32) else c

/-- `str.lower()`. -/
def pyLower (s : PyStr) : PyStr := s.map pyToLower

/-- Left part of `str.strip()`: drop leading whitespace. -/
def lstrip (s : PyStr) : PyStr := s.dropWhile pyIsSpace

/-- Right part of `str.strip()`: drop trailing whitespace. -/
def rstrip (s : PyStr) : PyStr := (s.reverse.dropWhile pyIsSpace).reverse

/-- `str.strip()`: drop leading and trailing whitespace. -/
def pyStrip (s : PyStr) : PyStr := rstrip (lstrip s)

/-- Worker for `re.sub(r'\s+', ' ', s)`: the flag records whether the
previous character was part of a whitespace run already replaced. -/
def collapseAux : Bool → PyStr → PyStr
  | _, [] => []
  | inRun, c :: rest =>
    if pyIsSpace c then
      if inRun then collapseAux true rest
      else ' ' :: collapseAux true rest
    else c :: collapseAux false rest

/-- `re.sub(r'\s+', ' ', s)`: replace each maximal whitespace run by a
single space. -/
def collapseWs (s : PyStr) : PyStr := collapseAux false s

/-- Python substring test `needle in hay`. -/
def containsSub (hay needle : PyStr) : Bool :=
  match hay with
  | [] => needle.isEmpty
  | _ :: t => needle.isPrefixOf hay || containsSub t needle

/-- UTF-8 encoding of one character, as produced by `str.encode()`. -/
def utf8Encode (c : Char) : List Nat :=
  let n := c.toNat
  if n < 0x80 then [n]
  else if n < 0x800 then
    [0xC0 ||| (n >>> 6), 0x80 ||| (n &&& 0x3F)]
  else if n < 0x10000 then
    [0xE0 ||| (n >>> 12), 0x80 ||| ((n >>> 6) &&& 0x3F), 0x80 ||| (n &&& 0x3F)]
  else
    [0xF0 ||| (n >>> 18), 0x80 ||| ((n >>> 12) &&& 0x3F),
     0x80 ||| ((n >>> 6) &&& 0x3F), 0x80 ||| (n &&& 0x3F)]

/-- `str.encode()`: UTF-8 bytes of a string. -/
def utf8Bytes (s : PyStr) : List Nat := (s.map utf8Encode).flatten

/-! ### SHA-256 (`hashlib.sha256`), bytes in, lowercase hex digest out -/

/-- Modulus for 32-bit words. -/
def w32 : Nat := 4294967296

/-- Right rotation of a 32-bit word. -/
def rotr (n x : Nat) : Nat := ((x >>> n) ||| (x <<< (32 - n))) % w32

/-- SHA-256 big sigma 0. -/
def bSig0 (x : Nat) : Nat := rotr 2 x ^^^ rotr 13 x ^^^ rotr 22 x

/-- SHA-256 big sigma 1. -/
def bSig1 (x : Nat) : Nat := rotr 6 x ^^^ rotr 11 x ^^^ rotr 25 x

/-- SHA-256 small sigma 0. -/
def sSig0 (x : Nat) : Nat := rotr 7 x ^^^ rotr 18 x ^^^ (x >>> 3)

/-- SHA-256 small sigma 1. -/
def sSig1 (x : Nat) : Nat := rotr 17 x ^^^ rotr 19 x ^^^ (x >>> 10)

/-- SHA-256 choice function. -/
def shaCh (x y z : Nat) : Nat := (x &&& y) ^^^ ((x ^^^ 0xFFFFFFFF) &&& z)

/-- SHA-256 majority function. -/
def shaMaj (x y z : Nat) : Nat := (x &&& y) ^^^ (x &&& z) ^^^ (y &&& z)

/-- The 64 SHA-256 round constants of FIPS 180-4, in decimal. -/
def shaK : List Nat :=
  [1116352408, 1899447441, 3049323471, 3921009573, 961987163, 1508970993,
   2453635748, 2870763221, 3624381080, 310598401, 607225278, 1426881987,
   1925078388, 2162078206, 2614888103, 3248222580, 3835390401, 4022224774,
   264347078, 604807628, 770255983, 1249150122, 1555081692, 1996064986,
   2554220882, 2821834349, 2952996808, 3210313671, 3336571891, 3584528711,
   113926993, 338241895, 666307205, 773529912, 1294757372, 1396182291,
   1695183700, 1986661051, 2177026350, 2456956037, 2730485921, 2820302411,
   3259730800, 3345764771, 3516065817, 3600352804, 4094571909, 275423344,
   430227734, 506948616, 659060556, 883997877, 958139571, 1322822218,
   1537002063, 1747873779, 1955562222, 2024104815, 2227730452, 2361852424,
   2428436474, 2756734187, 3204031479, 3329325298]

/-- Working state of the compression function. -/
structure ShaState where
  a : Nat
  b : Nat
  c : Nat
  d : Nat
  e : Nat
  f : Nat
  g : Nat
  h : Nat

/-- Initial SHA-256 hash value of FIPS 180-4, in decimal. -/
def shaInit : ShaState :=
  ⟨1779033703, 3144134277, 1013904242, 2773480762,
   1359893119, 2600822924, 528734635, 1541459225⟩

/-- One SHA-256 round for round constant `k` and schedule word `w`. -/
def shaRound (s : ShaState) (k w : Nat) : ShaState :=
  let t1 := (s.h + bSig1 s.e + shaCh s.e s.f s.g + k + w) % w32
  let t2 := (bSig0 s.a + shaMaj s.a s.b s.c) % w32
  { a := (t1 + t2) % w32, b := s.a, c := s.b, d := s.c,
    e := (s.d + t1) % w32, f := s.e, g := s.f, h := s.g }

/-- Big-endian bytes (`k` of them) of a natural number. -/
def toBytesBE (k n : Nat) : List Nat :=
  (List.range k).map (fun i => (n >>> (8 * (k - 1 - i))) % 256)

/-- SHA-256 padding: append `0x80`, zero bytes, and the 64-bit big-endian
bit length, reaching a multiple of 64 bytes. -/
def shaPad (msg : List Nat) : List Nat :=
  let len := msg.length
  let zeros := (119 - len % 64) % 64
  msg ++ 0x80 :: List.replicate zeros 0 ++ toBytesBE 8 (8 * len)

/-- Group bytes into big-endian 32-bit words. -/
def toWords : List Nat → List Nat
  | a :: b :: c :: d :: rest =>
      (a * 16777216 + b * 65536 + c * 256 + d) :: toWords rest
  | _ => []

/-- Split a word list into chunks of 16 words (one block each); the padded
message is always a whole number of blocks. -/
def chunks16 : List Nat → List (List Nat)
  | w0 :: w1 :: w2 :: w3 :: w4 :: w5 :: w6 :: w7 ::
    w8 :: w9 :: w10 :: w11 :: w12 :: w13 :: w14 :: w15 :: rest =>
      [w0, w1, w2, w3, w4, w5, w6, w7, w8, w9, w10, w11, w12, w13, w14, w15] ::
        chunks16 rest
  | [] => []
  | l => [l]

/-- Message schedule: extend a 16-word block to 64 words. -/
def shaSchedule (block : List Nat) : List Nat :=
  (List.range 48).foldl
    (fun w i =>
      w ++ [(sSig1 (w.getD (i + 14) 0) + w.getD (i + 9) 0 +
             sSig0 (w.getD (i + 1) 0) + w.getD i 0) % w32])
    block

/-- Compress one 16-word block into the running hash state. -/
def shaBlock (s : ShaState) (block : List Nat) : ShaState :=
  let w := shaSchedule block
  let t := (List.zip shaK w).foldl (fun st p => shaRound st p.1 p.2) s
  { a := (s.a + t.a) % w32, b := (s.b + t.b) % w32, c := (s.c + t.c) % w32,
    d := (s.d + t.d) % w32, e := (s.e + t.e) % w32, f := (s.f + t.f) % w32,
    g := (s.g + t.g) % w32, h := (s.h + t.h) % w32 }

/-- SHA-256 digest of a byte string, as the eight 32-bit hash words. -/
def sha256Words (msg : List Nat) : List Nat :=
  let s := (chunks16 (toWords (shaPad msg))).foldl shaBlock shaInit
  [s.a, s.b, s.c, s.d, s.e, s.f, s.g, s.h]

/-- Lowercase hex digit. -/
def hexDigit (n : Nat) : Char :=
  if n < 10 then Char.ofNat (48 + n) else Char.ofNat (87 + n)

/-- Eight lowercase hex digits of a 32-bit word, most significant first. -/
def wordToHex (w : Nat) : PyStr :=
  (List.range 8).map (fun i => hexDigit ((w >>> (4 * (7 - i))) % 16))

/-- `hashlib.sha256(msg).hexdigest()`: 64 lowercase hex characters. -/
def sha256Hex (msg : List Nat) : PyStr := ((sha256Words msg).map wordToHex).flatten

/-!
### `normalizer.py`: `_generate_fingerprint`

Source (`scraper/pipeline/normalizer.py`):
`normalized = f"{str(title).lower().strip()}|{str(company).lower().strip()}"`;
if the description is non-empty, the first 500 raw characters are taken,
internal whitespace collapsed, lowercased, stripped, and appended after a
`"|"`; the result is the first 32 hex characters of the SHA-256 digest.
-/

/-- The string that `_generate_fingerprint` hashes. -/
def fingerprintInput (title company description : PyStr) : PyStr :=
  let base := pyStrip (pyLower title) ++ '|' :: pyStrip (pyLower company)
  if description.isEmpty then base
  else base ++ '|' :: pyStrip (pyLower (collapseWs (description.take 500)))

/-- `_generate_fingerprint(title, company, description)`. -/
def generate_fingerprint (title company description : PyStr) : PyStr :=
  (sha256Hex (utf8Bytes (fingerprintInput title company description))).take 32

/-!
### Calendar arithmetic for `datetime.fromtimestamp(ts, tz=timezone.utc)`

Conversion from days since the Unix epoch to a proleptic Gregorian civil
date (the algorithm used by civil calendar libraries; CPython's datetime
produces the same proleptic Gregorian dates).
-/

/-- Civil date `(year, month, day)` of a day count since 1970-01-01. -/
def civilFromDays (z0 : Int) : Int × Int × Int :=
  let z := z0 + 719468
  let era := Int.fdiv z 146097
  let doe := z - era * 146097
  let yoe := Int.ediv (doe - Int.ediv doe 1460 + Int.ediv doe 36524 - Int.ediv doe 146096) 365
  let y := yoe + era * 400
  let doy := doe - (365 * yoe + Int.ediv yoe 4 - Int.ediv yoe 100)
  let mp := Int.ediv (5 * doy + 2) 153
  let d := doy - Int.ediv (153 * mp + 2) 5 + 1
  let m := mp + (if mp < 10 then 3 else -9)
  (if m ≤ 2 then y + 1 else y, m, d)

/-- Decimal digits of a non-negative integer, zero-padded to width `k`. -/
def padNum (k : Nat) (n : Int) : PyStr :=
  let ds := Nat.toDigits 10 n.toNat
  List.replicate (k - ds.length) '0' ++ ds

/-- The `isoformat()` string of an aware UTC datetime given in microseconds
since the epoch: `YYYY-MM-DDTHH:MM:SS[.ffffff]+00:00`. -/
def epochMicroToIso (mu : Int) : PyStr :=
  let sec := Int.fdiv mu 1000000
  let micro := Int.fmod mu 1000000
  let days := Int.fdiv sec 86400
  let sod := Int.fmod sec 86400
  match civilFromDays days with
  | (y, m, d) =>
    padNum 4 y ++ '-' :: padNum 2 m ++ '-' :: padNum 2 d ++
    'T' :: padNum 2 (Int.ediv sod 3600) ++ ':' :: padNum 2 (Int.emod (Int.ediv sod 60) 60) ++
    ':' :: padNum 2 (Int.emod sod 60) ++
    (if micro = 0 then [] else '.' :: padNum 6 micro) ++ S "+00:00"

/-- Microseconds of `datetime.min` (0001-01-01T00:00:00). -/
def minEpochMicro : Int := -62135596800000000

/-- Microseconds of `datetime.max` (9999-12-31T23:59:59.999999). -/
def maxEpochMicro : Int := 253402300799999999

/-- Epoch microseconds representable by a `datetime`; outside this range
`fromtimestamp` raises `ValueError` (year out of 1..9999). -/
def tsInRangeMicro (mu : Int) : Bool := minEpochMicro ≤ mu && mu ≤ maxEpochMicro

/-!
### `datetime.strptime` for the fixed format list of `_normalize_date`

CPython's `_strptime` compiles each format to a regex with
`re.IGNORECASE`: literal letters match either case, literal whitespace
matches a whitespace run, and each directive has a fixed digit or name
pattern.  The directives are modelled below for exactly the ten formats
the normalizer tries; month names are the C-locale English ones.
-/

/-- One strptime format directive (or literal) as compiled by `_strptime`. -/
inductive Dir where
  | lit (c : Char)
  | ws
  | dY
  | dm
  | dd
  | dH
  | dM
  | dS
  | df
  | dz
  | dB
  | db

/-- Fields collected while matching one format, with strptime defaults
1900-01-01 00:00:00, no timezone; `tz` is the offset in microseconds
when a `%z` matched. -/
structure TimeParse where
  year : Int := 1900
  month : Int := 1
  day : Int := 1
  hour : Int := 0
  minute : Int := 0
  second : Int := 0
  micro : Int := 0
  tz : Option Int := Option.none

/-- Numeric value of a decimal digit character. -/
def digitVal (c : Char) : Nat := c.toNat - 48

/-- Match a two-digit number whose value satisfies `p`, else one digit
satisfying `q` — the shape of the numeric strptime patterns, which list
their two-digit alternatives before the one-digit one. -/
def matchNum2or1 (p q : Nat → Bool) (s : PyStr) : Option (Nat × PyStr) :=
  match s with
  | a :: b :: r =>
    if a.isDigit && b.isDigit && p (10 * digitVal a + digitVal b) then
      some (10 * digitVal a + digitVal b, r)
    else if a.isDigit && q (digitVal a) then some (digitVal a, b :: r)
    else Option.none
  | [a] => if a.isDigit && q (digitVal a) then some (digitVal a, []) else Option.none
  | [] => Option.none

/-- Match exactly four digits (the `%Y` pattern). -/
def matchYear (s : PyStr) : Option (Nat × PyStr) :=
  match s with
  | a :: b :: c :: d :: r =>
    if a.isDigit && b.isDigit && c.isDigit && d.isDigit then
      some (1000 * digitVal a + 100 * digitVal b + 10 * digitVal c + digitVal d, r)
    else Option.none
  | _ => Option.none

/-- Match one to six digits greedily (the `%f` pattern); the value is
left-justified to microseconds as `int(found.ljust(6, '0'))`. -/
def matchFrac (s : PyStr) : Option (Nat × PyStr) :=
  let digs := (s.takeWhile Char.isDigit).take 6
  if digs.isEmpty then Option.none
  else
    some ((digs.foldl (fun acc c => 10 * acc + digitVal c) 0) * 10 ^ (6 - digs.length),
          s.drop digs.length)

/-- C-locale full month names with their numbers (the `%B` pattern). -/
def monthsFull : List (PyStr × Nat) :=
  [(S "january", 1), (S "february", 2), (S "march", 3), (S "april", 4),
   (S "may", 5), (S "june", 6), (S "july", 7), (S "august", 8),
   (S "september", 9), (S "october", 10), (S "november", 11), (S "december", 12)]

/-- C-locale abbreviated month names (the `%b` pattern). -/
def monthsAbbr : List (PyStr × Nat) :=
  [(S "jan", 1), (S "feb", 2), (S "mar", 3), (S "apr", 4), (S "may", 5),
   (S "jun", 6), (S "jul", 7), (S "aug", 8), (S "sep", 9), (S "oct", 10),
   (S "nov", 11), (S "dec", 12)]

/-- Case-insensitive month-name match against a name table. -/
def matchMonthName (table : List (PyStr × Nat)) (s : PyStr) : Option (Nat × PyStr) :=
  match table with
  | [] => Option.none
  | (name, v) :: rest =>
    if name.isPrefixOf (pyLower (s.take name.length)) then some (v, s.drop name.length)
    else matchMonthName rest s

/-- Match the `%z` pattern: `Z` (case-sensitive) or a `±HH[:]MM[[:]SS[.ffffff]]`
offset, returned in microseconds; the fractional digits are kept, as
`_strptime` keeps them in the timezone (left-justified to microseconds). -/
def matchTzOff (s : PyStr) : Option (Int × PyStr) :=
  match s with
  | 'Z' :: r => some (0, r)
  | sign :: rest =>
    if sign = '+' || sign = '-' then
      let sgn : Int := if sign = '-' then -1 else 1
      match rest with
      | h1 :: h2 :: r1 =>
        if h1.isDigit && h2.isDigit then
          let hh := 10 * digitVal h1 + digitVal h2
          let r2 := match r1 with | ':' :: r => r | r => r
          match r2 with
          | m1 :: m2 :: r3 =>
            if m1.isDigit && m2.isDigit && digitVal m1 ≤ 5 then
              let mm := 10 * digitVal m1 + digitVal m2
              let r4 := match r3 with | ':' :: r => r | r => r
              match r4 with
              | s1 :: s2 :: r5 =>
                if s1.isDigit && s2.isDigit && digitVal s1 ≤ 5 then
                  let ss := 10 * digitVal s1 + digitVal s2
                  match r5 with
                  | '.' :: r6 =>
                    let digs := (r6.takeWhile Char.isDigit).take 6
                    if digs.isEmpty then
                      some (sgn * 1000000 * (3600 * hh + 60 * mm + ss), '.' :: r6)
                    else
                      some (sgn * (1000000 * (3600 * hh + 60 * mm + ss) +
                          (digs.foldl (fun acc c => 10 * acc + digitVal c) 0) *
                            10 ^ (6 - digs.length)),
                        r6.drop digs.length)
                  | r6 => some (sgn * 1000000 * (3600 * hh + 60 * mm + ss), r6)
                else some (sgn * 1000000 * (3600 * hh + 60 * mm), r3)
              | _ => some (sgn * 1000000 * (3600 * hh + 60 * mm), r3)
            else Option.none
          | _ => Option.none
        else Option.none
      | _ => Option.none
    else Option.none
  | [] => Option.none

/-- Run one directive against the head of the input. -/
def runDir (d : Dir) (s : PyStr) (tp : TimeParse) : Option (TimeParse × PyStr) :=
  match d with
  | .lit c =>
    match s with
    | x :: r => if pyToLower x = pyToLower c then some (tp, r) else Option.none
    | [] => Option.none
  | .ws =>
    match s with
    | x :: _ => if pyIsSpace x then some (tp, s.dropWhile pyIsSpace) else Option.none
    | [] => Option.none
  | .dY => (matchYear s).map (fun p => ({ tp with year := p.1 }, p.2))
  | .dm => (matchNum2or1 (fun v => 1 ≤ v && v ≤ 12) (fun v => 1 ≤ v) s).map
      (fun p => ({ tp with month := p.1 }, p.2))
  | .dd =>
    match matchNum2or1 (fun v => 1 ≤ v && v ≤ 31) (fun v => 1 ≤ v) s with
    | some p => some ({ tp with day := p.1 }, p.2)
    | Option.none =>
      match s with
      | ' ' :: c :: r =>
        if c.isDigit && 1 ≤ digitVal c then some ({ tp with day := digitVal c }, r)
        else Option.none
      | _ => Option.none
  | .dH => (matchNum2or1 (fun v => v ≤ 23) (fun _ => true) s).map
      (fun p => ({ tp with hour := p.1 }, p.2))
  | .dM => (matchNum2or1 (fun v => v ≤ 59) (fun _ => true) s).map
      (fun p => ({ tp with minute := p.1 }, p.2))
  | .dS => (matchNum2or1 (fun v => v ≤ 61) (fun _ => true) s).map
      (fun p => ({ tp with second := p.1 }, p.2))
  | .df => (matchFrac s).map (fun p => ({ tp with micro := p.1 }, p.2))
  | .dz => (matchTzOff s).map (fun p => ({ tp with tz := some p.1 }, p.2))
  | .dB => (matchMonthName monthsFull s).map (fun p => ({ tp with month := p.1 }, p.2))
  | .db => (matchMonthName monthsAbbr s).map (fun p => ({ tp with month := p.1 }, p.2))

/-- Run a directive list; the whole input must be consumed. -/
def runDirs : List Dir → PyStr → TimeParse → Option TimeParse
  | [], s, tp => if s.isEmpty then some tp else Option.none
  | d :: ds, s, tp =>
    match runDir d s tp with
    | some (tp2, r) => runDirs ds r tp2
    | Option.none => Option.none

/-- Days in a month of the proleptic Gregorian calendar. -/
def daysInMonth (y m : Int) : Int :=
  if m = 2 then
    if Int.emod y 4 = 0 && (Int.emod y 100 ≠ 0 || Int.emod y 400 = 0) then 29 else 28
  else if m = 4 || m = 6 || m = 9 || m = 11 then 30
  else 31

/-- The `timezone` offset suffix of `isoformat()` for an offset in
microseconds: `±HH:MM`, extended by `:SS` when seconds or microseconds
are present and by `.ffffff` when microseconds are. -/
def offsetSuffix (off : Int) : PyStr :=
  let a := if off < 0 then -off else off
  let us := Int.emod a 1000000
  let sec := Int.ediv a 1000000
  (if off < 0 then '-' else '+') ::
    padNum 2 (Int.ediv sec 3600) ++ ':' :: padNum 2 (Int.emod (Int.ediv sec 60) 60) ++
    (if Int.emod sec 60 = 0 && us = 0 then []
     else ':' :: padNum 2 (Int.emod sec 60) ++
       (if us = 0 then [] else '.' :: padNum 6 us))

/-- Validate parsed fields as `datetime` does — including the
`timezone` constructor's requirement that an offset lie strictly
between -24 and +24 hours — and produce `dt.isoformat()`; `none` models
the `ValueError` that sends `_normalize_date` to the next format. -/
def isoOfParse (tp : TimeParse) : Option PyStr :=
  if 1 ≤ tp.year && tp.year ≤ 9999 && 1 ≤ tp.month && tp.month ≤ 12 &&
     1 ≤ tp.day && tp.day ≤ daysInMonth tp.year tp.month && tp.second ≤ 59 &&
     (match tp.tz with
      | some off => -86400000000 < off && off < 86400000000
      | Option.none => true) then
    some (padNum 4 tp.year ++ '-' :: padNum 2 tp.month ++ '-' :: padNum 2 tp.day ++
          'T' :: padNum 2 tp.hour ++ ':' :: padNum 2 tp.minute ++ ':' :: padNum 2 tp.second ++
          (if tp.micro = 0 then [] else '.' :: padNum 6 tp.micro) ++
          (match tp.tz with
           | some off => offsetSuffix off
           | Option.none => []))
  else Option.none

/-- The ten formats tried by `_normalize_date`, in order, as compiled
directive lists. -/
def normalizerFormats : List (List Dir) :=
  [[.dY, .lit '-', .dm, .lit '-', .dd, .lit 'T', .dH, .lit ':', .dM, .lit ':', .dS, .dz],
   [.dY, .lit '-', .dm, .lit '-', .dd, .lit 'T', .dH, .lit ':', .dM, .lit ':', .dS, .lit '.', .df, .dz],
   [.dY, .lit '-', .dm, .lit '-', .dd, .lit 'T', .dH, .lit ':', .dM, .lit ':', .dS, .lit 'Z'],
   [.dY, .lit '-', .dm, .lit '-', .dd, .ws, .dH, .lit ':', .dM, .lit ':', .dS],
   [.dB, .ws, .dd, .lit ',', .ws, .dY],
   [.db, .ws, .dd, .lit ',', .ws, .dY],
   [.dd, .ws, .dB, .ws, .dY],
   [.dd, .ws, .db, .ws, .dY],
   [.dm, .lit '/', .dd, .lit '/', .dY],
   [.dd, .lit '/', .dm, .lit '/', .dY]]

/-- Try the formats in order on the stripped string; first success wins. -/
def tryFormats : List (List Dir) → PyStr → Option PyStr
  | [], _ => Option.none
  | f :: fs, s =>
    match runDirs f s {} with
    | some tp =>
      match isoOfParse tp with
      | some iso => some iso
      | Option.none => tryFormats fs s
    | Option.none => tryFormats fs s

/-!
### `normalizer.py`: `_clean_title`, `_infer_experience`, `_normalize_date`
-/

/-- `re.sub(r'^\[.*?\]\s*', '', s)` on whitespace-collapsed input (the
caller collapses first, so `.` never meets a newline): drop a leading
bracketed tag through its first `]` plus following whitespace. -/
def stripPrefixTag (s : PyStr) : PyStr :=
  match s with
  | '[' :: rest =>
    if rest.contains ']' then
      ((rest.dropWhile (fun c => c ≠ ']')).drop 1).dropWhile pyIsSpace
    else s
  | _ => s

/-- `re.sub(r'\s*\[.*?\]$', '', s)` on whitespace-collapsed input: when
the string ends with `]` and contains a `[`, the leftmost match runs from
the whitespace before the first `[` to the end. -/
def stripSuffixTag (s : PyStr) : PyStr :=
  if s.getLast? = some ']' && s.contains '[' then
    rstrip (s.takeWhile (fun c => c ≠ '['))
  else s

/-- `_clean_title(title)`. -/
def clean_title (t : PyStr) : PyStr :=
  if t.isEmpty then []
  else stripSuffixTag (stripPrefixTag (pyStrip (collapseWs t)))

/-- Senior keywords of `_infer_experience` (note `"sr "` next to `"sr."`). -/
def seniorKeywords : List PyStr :=
  [S "senior", S "sr.", S "sr ", S "lead", S "principal", S "staff", S "architect"]

/-- Junior keywords of `_infer_experience` (note `"jr "` next to `"jr."`). -/
def juniorKeywords : List PyStr :=
  [S "junior", S "jr.", S "jr ", S "entry", S "associate", S "trainee", S "intern"]

/-- Mid keywords of `_infer_experience`. -/
def midKeywords : List PyStr := [S "mid-level", S "mid level", S "intermediate"]

/-- Executive keywords of `_infer_experience`. -/
def execKeywords : List PyStr :=
  [S "director", S "vp", S "vice president", S "head of", S "chief", S "cto", S "ceo"]

/-- Manager keywords of `_infer_experience`. -/
def managerKeywords : List PyStr := [S "manager", S "mgr"]

/-- `_infer_experience(title)`. -/
def infer_experience (title : PyStr) : PyStr :=
  let lower := pyLower title
  if seniorKeywords.any (containsSub lower) then S "Senior"
  else if juniorKeywords.any (containsSub lower) then S "Junior"
  else if midKeywords.any (containsSub lower) then S "Mid"
  else if execKeywords.any (containsSub lower) then S "Executive"
  else if managerKeywords.any (containsSub lower) then S "Manager"
  else S "Mid"

/-- Values the raw `posted_at` field can carry into `_normalize_date`:
absent (`None`), a string, or an unbounded Python `int`.  (CPython float
inputs are outside this model; every claim instance is an int or str.) -/
inductive PyVal where
  | vNone
  | vStr (s : PyStr)
  | vInt (n : Int)

/-- Python truthiness of a `PyVal` (`if not date_val`). -/
def pyTruthy : PyVal → Bool
  | .vNone => false
  | .vStr s => !s.isEmpty
  | .vInt n => n ≠ 0

/-- The one uncaught exception class of the pipeline: `OverflowError`,
which `except (ValueError, OSError)` does not intercept. -/
inductive PyErr where
  | overflowError
  deriving DecidableEq

/-- `re.match(r'\d{4}-\d{2}-\d{2}', s)`: the string begins with an ISO
date shape (applied to the unstripped string). -/
def isoPrefixMatch : PyStr → Bool
  | y1 :: y2 :: y3 :: y4 :: '-' :: m1 :: m2 :: '-' :: d1 :: d2 :: _ =>
    y1.isDigit && y2.isDigit && y3.isDigit && y4.isDigit &&
    m1.isDigit && m2.isDigit && d1.isDigit && d2.isDigit
  | _ => false

/-- The number `2 ^ 1024` (the first integer beyond the IEEE double
range), written out so kernel evaluation never unfolds a deep power;
certified against `2 ^ 1024` below. -/
def twoPow1024 : Int := 179769313486231590772930519078902473361797697894230657273430081157732675805500963132708477322407536021120113879871393357658789768814416622492847430639474124377767893424865485276302219601246094119453082952085005768838150682342462881473913110540827237163350510684586298239947245938479716304835356329624224137216

/-- `_normalize_date(date_val)`, with the ambient `datetime.now(timezone.utc)
.isoformat()` passed explicitly as `now`.

The numeric branch follows the source: `if ts > 1e12: ts = ts / 1000`, then
`datetime.fromtimestamp(ts, tz=timezone.utc)`, with `ValueError`/`OSError`
caught (yielding `now`) but `OverflowError` uncaught.  The float division
`ts / 1000` is modelled exactly on microseconds.  Three uncaught
`OverflowError` sources are modelled: the division overflows the double
range for `ts` around `1000 * 2^1024` (placed exactly at
`1000 * twoPow1024`), `fromtimestamp` overflows the C `time_t` when the
divided seconds reach `2^63` (placed exactly at `1000 * 2^63`; the real
float boundary wobbles within one ulp, about `1000 * 2^10`, of it), and
the seconds branch overflows `time_t` below `-2^63` (exact, since the
integer path involves no float).  For ms-range values not divisible by
1000 the real float path can further deviate from the exact model in
the microsecond digits; the quantified theorems therefore restrict the
millisecond branch to multiples of 1000 away from the ulp sliver. -/
def normalize_date (now : PyStr) (v : PyVal) : Except PyErr PyStr :=
  if !pyTruthy v then .ok now
  else
    match v with
    | .vNone => .ok now
    | .vInt ts =>
      if 1000000000000 < ts then
        if 1000 * twoPow1024 ≤ ts then .error .overflowError
        else if 1000 * 2 ^ 63 ≤ ts then .error .overflowError
        else
          let mu := ts * 1000
          if tsInRangeMicro mu then .ok (epochMicroToIso mu) else .ok now
      else
        if ts < -(2 ^ 63) then .error .overflowError
        else
          let mu := ts * 1000000
          if tsInRangeMicro mu then .ok (epochMicroToIso mu) else .ok now
    | .vStr s =>
      if isoPrefixMatch s then .ok s
      else
        match tryFormats normalizerFormats (pyStrip s) with
        | some iso => .ok iso
        | Option.none => .ok now

/-!
### `adapters/base.py` + `config.py`: category / employment-type mapping

These run in the adapters, before a `JobDetail` reaches the normalizer.
-/

/-- First-match lookup in an association list (`dict.get`). -/
def lookupMap (m : List (PyStr × PyStr)) (k : PyStr) : Option PyStr :=
  (m.find? (fun p => p.1 == k)).map (fun p => p.2)

/-- `config.CATEGORY_MAP`. -/
def CATEGORY_MAP : List (PyStr × PyStr) :=
  [(S "programming", S "Engineering"), (S "software development", S "Engineering"),
   (S "software engineering", S "Engineering"), (S "development", S "Engineering"),
   (S "developer", S "Engineering"), (S "developer / engineer", S "Engineering"),
   (S "engineering", S "Engineering"), (S "full-stack programming", S "Engineering"),
   (S "front-end programming", S "Engineering"), (S "back-end programming", S "Engineering"),
   (S "full stack", S "Engineering"), (S "frontend", S "Engineering"),
   (S "backend", S "Engineering"), (S "web development", S "Engineering"),
   (S "design", S "Design"), (S "creative & design", S "Design"),
   (S "design & ux", S "Design"), (S "ui/ux", S "Design"),
   (S "marketing", S "Marketing"), (S "sales and marketing", S "Marketing"),
   (S "marketing & sales", S "Marketing"), (S "sales", S "Sales"),
   (S "business development", S "Sales"), (S "business development & sales", S "Sales"),
   (S "customer support", S "Support"), (S "customer success", S "Support"),
   (S "customer service", S "Support"),
   (S "devops and sysadmin", S "DevOps"), (S "devops & infrastructure", S "DevOps"),
   (S "devops", S "DevOps"), (S "sysadmin", S "DevOps"),
   (S "system administration", S "DevOps"),
   (S "management and finance", S "Management"), (S "management", S "Management"),
   (S "management / operations", S "Management"), (S "product & operations", S "Management"),
   (S "product", S "Product"), (S "operations", S "Management"),
   (S "data science & analytics", S "Data"), (S "data science", S "Data"),
   (S "data", S "Data"), (S "ai & data", S "Data"),
   (S "writing", S "Writing"), (S "content & editorial", S "Writing"),
   (S "writing & editing", S "Writing"), (S "content", S "Writing"),
   (S "copywriting", S "Writing"),
   (S "finance", S "Finance"), (S "finance & accounting", S "Finance"),
   (S "finance and accounting", S "Finance"), (S "accounting", S "Finance"),
   (S "hr & recruiting", S "HR"), (S "human resources", S "HR"),
   (S "recruiting", S "HR"),
   (S "all other remote", S "Other"), (S "other", S "Other"),
   (S "various", S "Other"), (S "consulting", S "Other"), (S "legal", S "Other"),
   (S "education", S "Other"), (S "healthcare", S "Other"), (S "admin", S "Other"),
   (S "admin / virtual assistant", S "Other"), (S "virtual assistant", S "Other")]

/-- `config.EMPLOYMENT_TYPE_MAP`. -/
def EMPLOYMENT_TYPE_MAP : List (PyStr × PyStr) :=
  [(S "full-time", S "Full-time"), (S "full time", S "Full-time"),
   (S "fulltime", S "Full-time"), (S "ft", S "Full-time"),
   (S "part-time", S "Part-time"), (S "part time", S "Part-time"),
   (S "parttime", S "Part-time"), (S "pt", S "Part-time"),
   (S "contract", S "Contract"), (S "contractor", S "Contract"),
   (S "freelance", S "Contract"), (S "internship", S "Internship"),
   (S "intern", S "Internship")]

/-- `raw.replace("&amp;", "&")`: decode the one HTML entity handled. -/
def replaceAmp : PyStr → PyStr
  | '&' :: 'a' :: 'm' :: 'p' :: ';' :: rest => '&' :: replaceAmp rest
  | c :: rest => c :: replaceAmp rest
  | [] => []

/-- `BaseAdapter.normalize_category(raw)` for string input (the list-input
branch takes the first element and continues identically). -/
def normalize_category (raw : PyStr) : PyStr :=
  if raw.isEmpty then S "Other"
  else (lookupMap CATEGORY_MAP (pyLower (replaceAmp (pyStrip raw)))).getD (S "Other")

/-- `BaseAdapter.normalize_employment_type(raw)` for string input. -/
def normalize_employment_type (raw : PyStr) : PyStr :=
  if raw.isEmpty then S "Full-time"
  else (lookupMap EMPLOYMENT_TYPE_MAP (pyLower (pyStrip raw))).getD (S "Full-time")

/-!
### `normalizer.py`: `normalize_job`
-/

/-- `str(x or dflt)` for a string `x`: the default replaces only the empty
(falsy) string. -/
def pyOr (s dflt : PyStr) : PyStr := if s.isEmpty then dflt else s

/-- A `JobDetail` dataclass instance as the normalizer receives it.  All
declared-`str` fields are strings (`str(...)` coercion of other values
cannot fail and is outside the claims); `posted_at` keeps the loose
`PyVal` type because adapters hand through raw API values there. -/
structure JobDetailR where
  source : PyStr := []
  source_job_id : PyStr := []
  title : PyStr := []
  company_name : PyStr := []
  company_logo_url : PyStr := []
  company_domain : PyStr := []
  description_html : PyStr := []
  description_text : PyStr := []
  employment_type : PyStr := []
  remote_scope : PyStr := []
  location_text : PyStr := []
  category : PyStr := []
  experience_level : PyStr := []
  salary_min : Option Int := Option.none
  salary_max : Option Int := Option.none
  salary_currency : PyStr := []
  salary_period : PyStr := []
  salary_text : PyStr := []
  posted_at : PyVal := PyVal.vNone
  apply_url_original : PyStr := []
  apply_url_final : PyStr := []
  canonical_url : PyStr := []
  status : PyStr := []
  tags : PyStr := []

/-- The normalized dict produced by `normalize_job`. -/
structure CanonJob where
  source : PyStr
  source_job_id : PyStr
  title : PyStr
  company_name : PyStr
  company_logo_url : PyStr
  company_domain : PyStr
  description_html : PyStr
  description_text : PyStr
  employment_type : PyStr
  remote_scope : PyStr
  location_text : PyStr
  category : PyStr
  experience_level : PyStr
  salary_min : Option Int
  salary_max : Option Int
  salary_currency : PyStr
  salary_period : PyStr
  salary_text : PyStr
  posted_at : PyStr
  apply_url_original : PyStr
  apply_url_final : PyStr
  canonical_url : PyStr
  status : PyStr
  tags : PyStr
  fingerprint_hash : PyStr
  deriving DecidableEq

/-- The dict built by `normalize_job` once `_normalize_date` has returned
`postedIso`; field by field as in the source. -/
def buildJob (postedIso : PyStr) (d : JobDetailR) : CanonJob :=
  { source := d.source
    source_job_id := d.source_job_id
    title := clean_title d.title
    company_name := pyStrip d.company_name
    company_logo_url := d.company_logo_url
    company_domain := d.company_domain
    description_html := d.description_html
    description_text := d.description_text
    employment_type := pyOr d.employment_type (S "Full-time")
    remote_scope := pyOr d.remote_scope (S "Anywhere")
    location_text := d.location_text
    category := pyOr d.category (S "Other")
    experience_level :=
      if d.experience_level.isEmpty then infer_experience (clean_title d.title)
      else d.experience_level
    salary_min := d.salary_min
    salary_max := d.salary_max
    salary_currency := pyOr d.salary_currency (S "USD")
    salary_period := pyOr d.salary_period (S "yearly")
    salary_text := d.salary_text
    posted_at := postedIso
    apply_url_original := d.apply_url_original
    apply_url_final := d.apply_url_final
    canonical_url := d.canonical_url
    status := S "active"
    tags := d.tags
    fingerprint_hash :=
      generate_fingerprint (clean_title d.title) (pyStrip d.company_name) d.description_text }

/-- `normalize_job(detail)`: the only failure source is the uncaught
`OverflowError` escaping `_normalize_date`. -/
def normalize_job (now : PyStr) (d : JobDetailR) : Except PyErr CanonJob :=
  match normalize_date now d.posted_at with
  | .error e => .error e
  | .ok iso => .ok (buildJob iso d)

/-!
### `quality.py`: `passes_quality`
-/

/-- The six keys `passes_quality` reads from the job dict (`dict.get`
with default `""`). -/
structure QualityIn where
  title : PyStr := []
  company_name : PyStr := []
  description_text : PyStr := []
  apply_url_final : PyStr := []
  apply_url_original : PyStr := []
  canonical_url : PyStr := []
  deriving DecidableEq

/-- Spam indicator substrings checked against the lowercased title. -/
def spamIndicators : List PyStr :=
  [S "test job", S "test posting", S "do not apply",
   S "placeholder", S "lorem ipsum", S "asdf"]

/-- `passes_quality(job_data)`. -/
def passes_quality (j : QualityIn) : Bool × PyStr :=
  let title := pyStrip j.title
  let company := pyStrip j.company_name
  let description := pyStrip j.description_text
  let applyUrl := pyOr j.apply_url_final j.apply_url_original
  let canonicalUrl := j.canonical_url
  if title.isEmpty || title.length < 5 then (false, S "Missing or too-short title")
  else if company.isEmpty then (false, S "Missing company name")
  else if description.isEmpty || description.length < 50 then
    (false, S "Description too short (" ++ Nat.toDigits 10 description.length ++ S " chars)")
  else if applyUrl.isEmpty && canonicalUrl.isEmpty then
    (false, S "Missing apply URL and canonical URL")
  else if spamIndicators.any (containsSub (pyLower title)) then
    (false, S "Spam-like title: " ++ title)
  else (true, S "OK")

/-!
### `db.py`: rows, `upsert_job`, `check_duplicate_fingerprint`; and
`deduper.py`: `check_duplicate`
-/

/-- A row of the `jobs` table.  The five columns with SQL `DEFAULT`
values plus the key and timestamp columns are plain strings; the other
nullable columns are `Option`s. -/
structure Row where
  id : PyStr
  source : PyStr
  source_job_id : PyStr
  title : Option PyStr := Option.none
  company_name : Option PyStr := Option.none
  company_logo_url : Option PyStr := Option.none
  company_domain : Option PyStr := Option.none
  description_html : Option PyStr := Option.none
  description_text : Option PyStr := Option.none
  employment_type : PyStr := S "Full-time"
  remote_scope : PyStr := S "Anywhere"
  location_text : Option PyStr := Option.none
  category : Option PyStr := Option.none
  experience_level : Option PyStr := Option.none
  salary_min : Option Int := Option.none
  salary_max : Option Int := Option.none
  salary_currency : PyStr := S "USD"
  salary_period : PyStr := S "yearly"
  salary_text : Option PyStr := Option.none
  posted_at : Option PyStr := Option.none
  apply_url_original : Option PyStr := Option.none
  apply_url_final : Option PyStr := Option.none
  canonical_url : Option PyStr := Option.none
  status : PyStr := S "active"
  fingerprint_hash : Option PyStr := Option.none
  tags : Option PyStr := Option.none
  created_at : PyStr
  updated_at : PyStr
  last_checked_at : PyStr
  deriving DecidableEq

/-- The `job_data` dict handed to `upsert_job`: `source`/`source_job_id`
are present strings (the SELECT compares them), a field absent from the
dict or bound to `None` is `Option.none` (both are skipped identically by
the update loop and the insert loop). -/
structure JobData where
  id : Option PyStr := Option.none
  source : PyStr
  source_job_id : PyStr
  title : Option PyStr := Option.none
  company_name : Option PyStr := Option.none
  company_logo_url : Option PyStr := Option.none
  company_domain : Option PyStr := Option.none
  description_html : Option PyStr := Option.none
  description_text : Option PyStr := Option.none
  employment_type : Option PyStr := Option.none
  remote_scope : Option PyStr := Option.none
  location_text : Option PyStr := Option.none
  category : Option PyStr := Option.none
  experience_level : Option PyStr := Option.none
  salary_min : Option Int := Option.none
  salary_max : Option Int := Option.none
  salary_currency : Option PyStr := Option.none
  salary_period : Option PyStr := Option.none
  salary_text : Option PyStr := Option.none
  posted_at : Option PyStr := Option.none
  apply_url_original : Option PyStr := Option.none
  apply_url_final : Option PyStr := Option.none
  canonical_url : Option PyStr := Option.none
  status : Option PyStr := Option.none
  fingerprint_hash : Option PyStr := Option.none
  tags : Option PyStr := Option.none
  deriving DecidableEq

/-- The key lookup of `upsert_job`:
`SELECT id FROM jobs WHERE source = ? AND source_job_id = ?`. -/
def findByKey (db : List Row) (jd : JobData) : Option Row :=
  db.find? (fun r => r.source == jd.source && r.source_job_id == jd.source_job_id)

/-- Whether the update loop collects at least one field
(`if key in job_data and job_data[key] is not None` over the fixed key
list); with no field the UPDATE statement is skipped entirely. -/
def hasMutableField (jd : JobData) : Bool :=
  jd.title.isSome || jd.company_name.isSome || jd.company_logo_url.isSome ||
  jd.company_domain.isSome || jd.description_html.isSome || jd.description_text.isSome ||
  jd.employment_type.isSome || jd.remote_scope.isSome || jd.location_text.isSome ||
  jd.category.isSome || jd.experience_level.isSome || jd.salary_min.isSome ||
  jd.salary_max.isSome || jd.salary_currency.isSome || jd.salary_period.isSome ||
  jd.salary_text.isSome || jd.posted_at.isSome || jd.apply_url_original.isSome ||
  jd.apply_url_final.isSome || jd.canonical_url.isSome || jd.status.isSome ||
  jd.fingerprint_hash.isSome || jd.tags.isSome

/-- The UPDATE statement applied to one row: each present field is set,
absent fields keep the stored value, and `updated_at`/`last_checked_at`
are set to `datetime('now')`; `id`, `created_at`, `source` and
`source_job_id` are not in the SET list. -/
def updateRow (now : PyStr) (jd : JobData) (r : Row) : Row :=
  { r with
    title := jd.title <|> r.title
    company_name := jd.company_name <|> r.company_name
    company_logo_url := jd.company_logo_url <|> r.company_logo_url
    company_domain := jd.company_domain <|> r.company_domain
    description_html := jd.description_html <|> r.description_html
    description_text := jd.description_text <|> r.description_text
    employment_type := jd.employment_type.getD r.employment_type
    remote_scope := jd.remote_scope.getD r.remote_scope
    location_text := jd.location_text <|> r.location_text
    category := jd.category <|> r.category
    experience_level := jd.experience_level <|> r.experience_level
    salary_min := jd.salary_min <|> r.salary_min
    salary_max := jd.salary_max <|> r.salary_max
    salary_currency := jd.salary_currency.getD r.salary_currency
    salary_period := jd.salary_period.getD r.salary_period
    salary_text := jd.salary_text <|> r.salary_text
    posted_at := jd.posted_at <|> r.posted_at
    apply_url_original := jd.apply_url_original <|> r.apply_url_original
    apply_url_final := jd.apply_url_final <|> r.apply_url_final
    canonical_url := jd.canonical_url <|> r.canonical_url
    status := jd.status.getD r.status
    fingerprint_hash := jd.fingerprint_hash <|> r.fingerprint_hash
    tags := jd.tags <|> r.tags
    updated_at := now
    last_checked_at := now }

/-- The INSERT statement: present fields are the column list, omitted
columns receive their SQL `DEFAULT` (`'Full-time'`, `'Anywhere'`, `'USD'`,
`'yearly'`, `'active'`, and `datetime('now')` for the timestamps); other
omitted columns stay NULL. -/
def insertRow (now : PyStr) (jid : PyStr) (jd : JobData) : Row :=
  { id := jid
    source := jd.source
    source_job_id := jd.source_job_id
    title := jd.title
    company_name := jd.company_name
    company_logo_url := jd.company_logo_url
    company_domain := jd.company_domain
    description_html := jd.description_html
    description_text := jd.description_text
    employment_type := jd.employment_type.getD (S "Full-time")
    remote_scope := jd.remote_scope.getD (S "Anywhere")
    location_text := jd.location_text
    category := jd.category
    experience_level := jd.experience_level
    salary_min := jd.salary_min
    salary_max := jd.salary_max
    salary_currency := jd.salary_currency.getD (S "USD")
    salary_period := jd.salary_period.getD (S "yearly")
    salary_text := jd.salary_text
    posted_at := jd.posted_at
    apply_url_original := jd.apply_url_original
    apply_url_final := jd.apply_url_final
    canonical_url := jd.canonical_url
    status := jd.status.getD (S "active")
    fingerprint_hash := jd.fingerprint_hash
    tags := jd.tags
    created_at := now
    updated_at := now
    last_checked_at := now }

/-- `job_id = job_data.get("id") or gen_id()`: an absent or empty
(falsy) id means a generated one. -/
def upsertId (freshId : PyStr) (jd : JobData) : PyStr :=
  match jd.id with
  | some i => if i.isEmpty then freshId else i
  | Option.none => freshId

/-- `upsert_job(conn, job_data)`, with `datetime('now')` and the
`uuid.uuid4()` of `gen_id()` passed explicitly.  Returns the job id and
the new table state; on the update path the existing row id wins.  The
UPDATE runs `WHERE id = ?`, so every row carrying the found id is
updated (the PRIMARY KEY makes that one row). -/
def upsert_job (now freshId : PyStr) (db : List Row) (jd : JobData) :
    PyStr × List Row :=
  match findByKey db jd with
  | some r =>
    if hasMutableField jd then
      (r.id, db.map (fun r2 => if r2.id == r.id then updateRow now jd r2 else r2))
    else (r.id, db)
  | Option.none =>
    (upsertId freshId jd, db ++ [insertRow now (upsertId freshId jd) jd])

/-- A sequence of upserts, each with its own clock value and generated id. -/
def upsertSeq (db : List Row) : List (PyStr × PyStr × JobData) → List Row
  | [] => db
  | (now, fresh, jd) :: rest => upsertSeq (upsert_job now fresh db jd).2 rest

/-- Number of rows with a given (source, source_job_id) key. -/
def countKey (db : List Row) (src sjid : PyStr) : Nat :=
  (db.filter (fun r => r.source == src && r.source_job_id == sjid)).length

/-- `db.check_duplicate_fingerprint(conn, fingerprint, exclude_id)`: the
first active row with the fingerprint, the excluding branch taken only
for a truthy (non-empty, non-None) `exclude_id`; returns `(id, source)`. -/
def check_duplicate_fingerprint (db : List Row) (fp : PyStr) (excludeId : PyStr) :
    Option (PyStr × PyStr) :=
  if !excludeId.isEmpty then
    (db.find? (fun r =>
        r.fingerprint_hash == some fp && r.id != excludeId && r.status == S "active")).map
      (fun r => (r.id, r.source))
  else
    (db.find? (fun r => r.fingerprint_hash == some fp && r.status == S "active")).map
      (fun r => (r.id, r.source))

/-- The fields `deduper.check_duplicate` reads from `job_data`: only the
fingerprint is consulted; the record's own persisted id is carried here to
state claims about it but the source function never reads it. -/
structure DedupJob where
  id : Option PyStr := Option.none
  fingerprint_hash : PyStr := []
  deriving DecidableEq

/-- `deduper.check_duplicate(conn, job_data)`: level 2 only — a fingerprint
lookup with no `exclude_id` argument passed. -/
def check_duplicate (db : List Row) (jd : DedupJob) : Option (PyStr × PyStr) :=
  if jd.fingerprint_hash.isEmpty then Option.none
  else check_duplicate_fingerprint db jd.fingerprint_hash []

/-!
### Reference definitions written from the specification text

Each `spec...` definition below transcribes the spec's words (not the
source); the claim theorems compare them with the source embeddings.
-/

/-- The spec's experience inference: case-insensitive keyword match
against the five ordered keyword sets exactly as the spec lists them
(`"senior", "sr.", "lead", "principal", "staff", "architect"` and so on),
first match wins, default `Mid`. -/
def specInferExperience (title : PyStr) : PyStr :=
  let lower := pyLower title
  if [S "senior", S "sr.", S "lead", S "principal", S "staff", S "architect"].any
      (containsSub lower) then S "Senior"
  else if [S "junior", S "jr.", S "entry", S "associate", S "trainee", S "intern"].any
      (containsSub lower) then S "Junior"
  else if [S "mid-level", S "mid level", S "intermediate"].any (containsSub lower) then S "Mid"
  else if [S "director", S "vp", S "vice president", S "head of", S "chief", S "cto", S "ceo"].any
      (containsSub lower) then S "Executive"
  else if [S "manager", S "mgr"].any (containsSub lower) then S "Manager"
  else S "Mid"

/-- The spec's experience inference amended with the two keywords the
source also checks: `"sr "` in the Senior set and `"jr "` in the Junior
set (each with a trailing space). -/
def specInferExperienceAmended (title : PyStr) : PyStr :=
  let lower := pyLower title
  if [S "senior", S "sr.", S "sr ", S "lead", S "principal", S "staff", S "architect"].any
      (containsSub lower) then S "Senior"
  else if [S "junior", S "jr.", S "jr ", S "entry", S "associate", S "trainee", S "intern"].any
      (containsSub lower) then S "Junior"
  else if [S "mid-level", S "mid level", S "intermediate"].any (containsSub lower) then S "Mid"
  else if [S "director", S "vp", S "vice president", S "head of", S "chief", S "cto", S "ceo"].any
      (containsSub lower) then S "Executive"
  else if [S "manager", S "mgr"].any (containsSub lower) then S "Manager"
  else S "Mid"

/-- The spec's reading of the numeric `posted_at` branch: epoch seconds
when the magnitude is below 1e12, otherwise milliseconds divided by
1000 — written on exact microseconds. -/
def specNumericEpochIso (ts : Int) : PyStr :=
  if (if ts < 0 then -ts else ts) < 1000000000000 then epochMicroToIso (ts * 1000000)
  else epochMicroToIso (ts * 1000)

/-- The spec's five quality rules in their fixed order, first failing
rule's reason returned, all passing accepted with `"OK"`. -/
def specQuality (j : QualityIn) : Bool × PyStr :=
  if (pyStrip j.title).length < 5 then (false, S "Missing or too-short title")
  else if (pyStrip j.company_name).isEmpty then (false, S "Missing company name")
  else if (pyStrip j.description_text).length < 50 then
    (false, S "Description too short (" ++
      Nat.toDigits 10 (pyStrip j.description_text).length ++ S " chars)")
  else if j.apply_url_final.isEmpty && j.apply_url_original.isEmpty &&
      j.canonical_url.isEmpty then
    (false, S "Missing apply URL and canonical URL")
  else if spamIndicators.any (containsSub (pyLower (pyStrip j.title))) then
    (false, S "Spam-like title: " ++ pyStrip j.title)
  else (true, S "OK")

/-!
### Concrete scenario inputs used by counterexamples and witnesses
-/

/-- The Python int `10 ** 400`, written out so that kernel evaluation
never unfolds a 400-deep power. -/
def tenPow400 : Int := 10000000000000000000000000000000000000000000000000000000000000000000000000000000000000000000000000000000000000000000000000000000000000000000000000000000000000000000000000000000000000000000000000000000000000000000000000000000000000000000000000000000000000000000000000000000000000000000000000000000000000000000000000000000000000000000000000000000000000000000000000000000000000000000000000000000000000000

/-- A raw detail whose `posted_at` is the Python int `10 ** 400`. -/
def detailHugeEpoch : JobDetailR := { posted_at := PyVal.vInt tenPow400 }

/-- A raw detail whose `posted_at` is the unparseable string `"garbage"`. -/
def detailGarbageDate : JobDetailR := { posted_at := PyVal.vStr (S "garbage") }

/-- A raw detail carrying a category and employment type absent from the
lookup tables. -/
def detailUnmapped : JobDetailR := { category := S "banana", employment_type := S "gig" }

/-- A persisted active row with id `J1` and fingerprint `FP`. -/
def rowJ1 : Row :=
  insertRow (S "2024-01-01 00:00:00") (S "J1")
    { source := S "src1", source_job_id := S "k1",
      title := some (S "T one"), fingerprint_hash := some (S "FP") }

/-- A store holding only `rowJ1`. -/
def storeJ1 : List Row := [rowJ1]

/-- The dedup view of the very job persisted as `rowJ1`: it carries its
own persisted id `J1` and the same fingerprint. -/
def dedupSelf : DedupJob := { id := some (S "J1"), fingerprint_hash := S "FP" }

/-- An upsert payload for the key (src1, k1) with changed content. -/
def payloadB : JobData :=
  { source := S "src1", source_job_id := S "k1",
    title := some (S "T two"), fingerprint_hash := some (S "FP2") }

/-- An upsert payload for the key (src1, k1) used as the first insert. -/
def payloadA : JobData :=
  { source := S "src1", source_job_id := S "k1",
    title := some (S "T one"), fingerprint_hash := some (S "FP") }

/-- A quality input valid in every rule, description exactly 49
characters. -/
def qualityDesc49 : QualityIn :=
  { title := S "Valid Title", company_name := S "ACME",
    description_text := List.replicate 49 'd', apply_url_final := S "https://x" }

/-- The same quality input with a 50-character description. -/
def qualityDesc50 : QualityIn :=
  { title := S "Valid Title", company_name := S "ACME",
    description_text := List.replicate 50 'd', apply_url_final := S "https://x" }

/-- A quality input valid in every rule except its 4-character title. -/
def qualityTitle4 : QualityIn :=
  { title := S "Dev4", company_name := S "ACME",
    description_text := List.replicate 50 'd', apply_url_final := S "https://x" }

/-- The same quality input with a 5-character title. -/
def qualityTitle5 : QualityIn :=
  { title := S "Dev 5", company_name := S "ACME",
    description_text := List.replicate 50 'd', apply_url_final := S "https://x" }

/-!
### Helper lemmas on characters and strings
-/

/-- Reduction of `Char.ofNat` below the surrogate range. -/
theorem char_toNat_ofNat (n : Nat) (h : n < 55296) : (Char.ofNat n).toNat = n := by
  unfold Char.ofNat
  split
  · rfl
  · rename_i hv
    exact absurd (Or.inl (by omega)) hv

/-- Character order is code point order. -/
theorem char_le_iff (a b : Char) : a ≤ b ↔ a.toNat ≤ b.toNat := by
  rw [Char.le_def]
  exact Iff.rfl

/-- Character equality is code point equality. -/
theorem char_eq_iff (a b : Char) : a = b ↔ a.toNat = b.toNat := by
  constructor
  · intro h
    rw [h]
  · intro h
    exact Char.ext (UInt32.ext h)

/-- Code point of `pyToLower`. -/
theorem toNat_pyToLower (c : Char) :
    (pyToLower c).toNat =
      if 65 ≤ c.toNat ∧ c.toNat ≤ 90 then c.toNat + 32 else c.toNat := by
  have hA : ('A' : Char).toNat = 65 := rfl
  have hZ : ('Z' : Char).toNat = 90 := rfl
  unfold pyToLower
  split
  · rename_i hb
    simp only [Bool.and_eq_true, decide_eq_true_eq, char_le_iff, hA, hZ] at hb
    rw [if_pos hb]
    exact char_toNat_ofNat _ (by omega)
  · rename_i hb
    simp only [Bool.and_eq_true, decide_eq_true_eq, char_le_iff, hA, hZ] at hb
    rw [if_neg (by omega)]

/-- `pyIsSpace` through code points. -/
theorem pyIsSpace_eq_decide (c : Char) :
    pyIsSpace c = decide (c.toNat = 32 ∨ c.toNat = 9 ∨ c.toNat = 10 ∨
      c.toNat = 13 ∨ c.toNat = 11 ∨ c.toNat = 12) := by
  unfold pyIsSpace
  simp only [char_eq_iff, show (' ' : Char).toNat = 32 from rfl,
    show ('\t' : Char).toNat = 9 from rfl, show ('\n' : Char).toNat = 10 from rfl,
    show ('\r' : Char).toNat = 13 from rfl, show ('\x0b' : Char).toNat = 11 from rfl,
    show ('\x0c' : Char).toNat = 12 from rfl, Bool.or_assoc, Bool.decide_or]

/-- Lowercasing never moves a character into or out of the whitespace
class. -/
theorem pyIsSpace_pyToLower (c : Char) : pyIsSpace (pyToLower c) = pyIsSpace c := by
  rw [pyIsSpace_eq_decide, pyIsSpace_eq_decide, toNat_pyToLower]
  by_cases h : 65 ≤ c.toNat ∧ c.toNat ≤ 90
  · rw [if_pos h]
    exact decide_eq_decide.mpr (by omega)
  · rw [if_neg h]

/-- ASCII lowercasing is idempotent. -/
theorem pyToLower_idem (c : Char) : pyToLower (pyToLower c) = pyToLower c := by
  rw [char_eq_iff, toNat_pyToLower, toNat_pyToLower c]
  by_cases h : 65 ≤ c.toNat ∧ c.toNat ≤ 90
  · rw [if_pos h, if_neg (by omega)]
  · rw [if_neg h, if_neg h]

/-- `str.lower()` is idempotent. -/
theorem pyLower_idem (s : PyStr) : pyLower (pyLower s) = pyLower s := by
  unfold pyLower
  rw [List.map_map]
  exact List.map_congr_left (fun c _ => pyToLower_idem c)

/-- Whitespace collapse commutes with lowercasing. -/
theorem collapseAux_map_lower (s : PyStr) :
    ∀ b, collapseAux b (pyLower s) = pyLower (collapseAux b s) := by
  induction s with
  | nil => intro b; rfl
  | cons c t ih =>
    intro b
    show collapseAux b (pyToLower c :: pyLower t) = _
    unfold collapseAux
    rw [pyIsSpace_pyToLower]
    by_cases hc : pyIsSpace c
    · rw [if_pos hc, if_pos hc]
      by_cases hb : b
      · rw [if_pos hb, if_pos hb, ih]
      · rw [if_neg hb, if_neg hb, ih]
        rfl
    · rw [if_neg hc, if_neg hc, ih]
      rfl

/-- `collapseWs` commutes with lowercasing. -/
theorem collapseWs_pyLower (s : PyStr) : collapseWs (pyLower s) = pyLower (collapseWs s) :=
  collapseAux_map_lower s false

/-- The whitespace predicate is unchanged by composition with lowering. -/
theorem pyIsSpace_comp_pyToLower : (pyIsSpace ∘ pyToLower) = pyIsSpace :=
  funext (fun c => pyIsSpace_pyToLower c)

/-- Stripping commutes with lowercasing. -/
theorem pyStrip_pyLower (s : PyStr) : pyStrip (pyLower s) = pyLower (pyStrip s) := by
  unfold pyStrip lstrip rstrip pyLower
  rw [List.dropWhile_map, pyIsSpace_comp_pyToLower, ← List.map_reverse,
    List.dropWhile_map, pyIsSpace_comp_pyToLower, ← List.map_reverse]

/-- Dropping leading whitespace ignores an all-whitespace front segment. -/
theorem lstrip_append_sp (a l : PyStr) (h : ∀ c ∈ a, pyIsSpace c) :
    lstrip (a ++ l) = lstrip l :=
  List.dropWhile_append_of_pos h

/-- Dropping trailing whitespace ignores an all-whitespace back segment. -/
theorem rstrip_append_sp (l b : PyStr) (h : ∀ c ∈ b, pyIsSpace c) :
    rstrip (l ++ b) = rstrip l := by
  unfold rstrip
  rw [List.reverse_append, List.dropWhile_append_of_pos (by
    intro c hc
    exact h c (List.mem_reverse.mp hc))]

/-- An all-whitespace string strips to nothing. -/
theorem lstrip_all_sp (b : PyStr) (h : ∀ c ∈ b, pyIsSpace c) : lstrip b = [] := by
  have := lstrip_append_sp b [] h
  rw [List.append_nil] at this
  rw [this]
  rfl

/-- Stripping removes surrounding whitespace entirely. -/
theorem pyStrip_sandwich (a x b : PyStr)
    (ha : ∀ c ∈ a, pyIsSpace c) (hb : ∀ c ∈ b, pyIsSpace c) :
    pyStrip (a ++ x ++ b) = pyStrip x := by
  unfold pyStrip
  rw [List.append_assoc, lstrip_append_sp a (x ++ b) ha]
  rw [show lstrip (x ++ b) = List.dropWhile pyIsSpace (x ++ b) from rfl,
    List.dropWhile_append]
  by_cases hx : (List.dropWhile pyIsSpace x).isEmpty
  · rw [if_pos hx]
    rw [show List.dropWhile pyIsSpace b = lstrip b from rfl, lstrip_all_sp b hb]
    rw [show List.dropWhile pyIsSpace x = lstrip x from rfl] at hx
    rw [List.isEmpty_iff] at hx
    rw [hx]
  · rw [if_neg hx]
    exact rstrip_append_sp _ b hb

/-- Lowercasing keeps an all-whitespace string all-whitespace. -/
theorem pyLower_all_sp (w : PyStr) (h : ∀ c ∈ w, pyIsSpace c) :
    ∀ c ∈ pyLower w, pyIsSpace c := by
  intro c hc
  rcases List.mem_map.mp hc with ⟨c0, hc0, rfl⟩
  rw [pyIsSpace_pyToLower]
  exact h c0 hc0

/-- Input-string stability of the fingerprint under surrounding
whitespace of title and company. -/
theorem fingerprintInput_sandwich (t c d w1 w2 w3 w4 : PyStr)
    (h1 : ∀ x ∈ w1, pyIsSpace x) (h2 : ∀ x ∈ w2, pyIsSpace x)
    (h3 : ∀ x ∈ w3, pyIsSpace x) (h4 : ∀ x ∈ w4, pyIsSpace x) :
    fingerprintInput (w1 ++ t ++ w2) (w3 ++ c ++ w4) d = fingerprintInput t c d := by
  unfold fingerprintInput
  have et : pyStrip (pyLower (w1 ++ t ++ w2)) = pyStrip (pyLower t) := by
    unfold pyLower
    rw [List.map_append, List.map_append]
    exact pyStrip_sandwich _ _ _ (pyLower_all_sp w1 h1) (pyLower_all_sp w2 h2)
  have ec : pyStrip (pyLower (w3 ++ c ++ w4)) = pyStrip (pyLower c) := by
    unfold pyLower
    rw [List.map_append, List.map_append]
    exact pyStrip_sandwich _ _ _ (pyLower_all_sp w3 h3) (pyLower_all_sp w4 h4)
  rw [et, ec]

/-- Input-string stability of the fingerprint under lowercasing. -/
theorem fingerprintInput_lower (t c d : PyStr) :
    fingerprintInput (pyLower t) (pyLower c) (pyLower d) = fingerprintInput t c d := by
  unfold fingerprintInput
  have hemp : (pyLower d).isEmpty = d.isEmpty := by
    cases d
    · rfl
    · rfl
  have htake : (pyLower d).take 500 = pyLower (d.take 500) := by
    unfold pyLower
    rw [List.map_take]
  rw [pyLower_idem t, pyLower_idem c, hemp, htake, collapseWs_pyLower,
    pyLower_idem (collapseWs (d.take 500))]

/-- The fingerprint input depends on the description only through its
emptiness and first 500 raw characters. -/
theorem fingerprintInput_take (t c d d2 : PyStr) (h : d.take 500 = d2.take 500) :
    fingerprintInput t c d = fingerprintInput t c d2 := by
  have hemp : d.isEmpty = d2.isEmpty := by
    cases d with
    | nil =>
      cases d2 with
      | nil => rfl
      | cons a l =>
        rw [List.take_nil, List.take_succ_cons] at h
        exact absurd h.symm (List.cons_ne_nil a _)
    | cons a l =>
      cases d2 with
      | nil =>
        rw [List.take_nil, List.take_succ_cons] at h
        exact absurd h (List.cons_ne_nil a _)
      | cons b m => rfl
  unfold fingerprintInput
  rw [hemp, h]

/-- C1 (amended): the fingerprint of the normalizer is invariant to case
of all three inputs and to surrounding whitespace of title and company,
and two descriptions agreeing on their first 500 raw characters (the
source truncates before collapsing whitespace) give equal fingerprints
with title and company held fixed. -/
theorem C1_fingerprint_stability :
    (∀ t c d w1 w2 w3 w4 : PyStr, (∀ x ∈ w1, pyIsSpace x) → (∀ x ∈ w2, pyIsSpace x) →
       (∀ x ∈ w3, pyIsSpace x) → (∀ x ∈ w4, pyIsSpace x) →
       generate_fingerprint (w1 ++ t ++ w2) (w3 ++ c ++ w4) d =
         generate_fingerprint t c d) ∧
    (∀ t c d : PyStr, generate_fingerprint (pyLower t) (pyLower c) (pyLower d) =
       generate_fingerprint t c d) ∧
    (∀ t c d d2 : PyStr, d.take 500 = d2.take 500 →
       generate_fingerprint t c d = generate_fingerprint t c d2) := by
  refine ⟨?_, ?_, ?_⟩
  · intro t c d w1 w2 w3 w4 h1 h2 h3 h4
    exact congrArg (fun s => (sha256Hex (utf8Bytes s)).take 32)
      (fingerprintInput_sandwich t c d w1 w2 w3 w4 h1 h2 h3 h4)
  · intro t c d
    exact congrArg (fun s => (sha256Hex (utf8Bytes s)).take 32)
      (fingerprintInput_lower t c d)
  · intro t c d d2 h
    exact congrArg (fun s => (sha256Hex (utf8Bytes s)).take 32)
      (fingerprintInput_take t c d d2 h)

set_option maxRecDepth 10000 in
/-- C1 witness: the three stability parts evaluated at concrete inputs. -/
theorem C1_fingerprint_stability_witness :
    generate_fingerprint ([' '] ++ S "Dev" ++ [' ']) ([' '] ++ S "ACME" ++ [' ']) (S "desc") =
      generate_fingerprint (S "Dev") (S "ACME") (S "desc") ∧
    generate_fingerprint (pyLower (S "DEV")) (pyLower (S "ACME")) (pyLower (S "DESC")) =
      generate_fingerprint (S "DEV") (S "ACME") (S "DESC") ∧
    generate_fingerprint (S "t") (S "c") (List.replicate 500 'x' ++ ['y']) =
      generate_fingerprint (S "t") (S "c") (List.replicate 500 'x' ++ ['z']) :=
  ⟨C1_fingerprint_stability.1 (S "Dev") (S "ACME") (S "desc") [' '] [' '] [' '] [' ']
      (by decide) (by decide) (by decide) (by decide),
   C1_fingerprint_stability.2.1 (S "DEV") (S "ACME") (S "DESC"),
   C1_fingerprint_stability.2.2 (S "t") (S "c") _ _ (by
      have h1 : ∀ c : Char, (List.replicate 500 'x' ++ [c]).take 500 = List.replicate 500 'x' := by
        intro c
        have h2 := List.take_left (List.replicate 500 'x') [c]
        rwa [List.length_replicate] at h2
      rw [h1, h1])⟩

/-- C1 counterexample: the fingerprint is not invariant to surrounding
whitespace of the description — a whitespace-only description hashes a
trailing `"|"` segment that an empty description omits. -/
theorem C1_fingerprint_ws_counterexample :
    generate_fingerprint (S "a") (S "b") (S "") ≠
      generate_fingerprint (S "a") (S "b") (S " ") := by decide

/-- C10: `normalize_job` unconditionally sets `status` to `"active"`,
whatever status the raw detail carried. -/
theorem C10_status_always_active (now : PyStr) (d : JobDetailR) (r : CanonJob)
    (h : normalize_job now d = Except.ok r) : r.status = S "active" := by
  unfold normalize_job at h
  cases heq : normalize_date now d.posted_at with
  | error e =>
    rw [heq] at h
    exact absurd h (by simp)
  | ok iso =>
    rw [heq] at h
    simp only [Except.ok.injEq] at h
    rw [← h]
    rfl

/-- C10 witness: a detail explicitly carrying status `"stale"` is
normalized back to `"active"`. -/
theorem C10_status_always_active_witness :
    (buildJob (S "T0") ({ status := S "stale" } : JobDetailR)).status = S "active" :=
  C10_status_always_active (S "T0") { status := S "stale" } _ rfl

/-- The literal constant matches `2 ^ 1024`. -/
theorem twoPow1024_eq : twoPow1024 = 2 ^ 1024 := by norm_num [twoPow1024]

/-- C2: at `posted_at = 10 ** 400` the normalizer raises — the claimed
totality fails because `ts / 1000` overflows the float range with an
`OverflowError` that `except (ValueError, OSError)` does not catch. -/
theorem C2_normalize_overflow :
    tenPow400 = 10 ^ 400 ∧
    normalize_job (S "T0") detailHugeEpoch = Except.error PyErr.overflowError :=
  ⟨by norm_num [tenPow400], rfl⟩

/-- C7 counterexample: at exactly `10^12` the code compares `ts > 1e12`
(false) and treats the value as seconds, which lands beyond year 9999 and
falls back to the current time, while the claim's magnitude rule reads it
as milliseconds and yields 2001-09-09. -/
theorem C7_numeric_boundary_counterexample :
    normalize_date (S "NOW-SENTINEL") (PyVal.vInt (10 ^ 12)) =
      Except.ok (S "NOW-SENTINEL") ∧
    specNumericEpochIso (10 ^ 12) = S "2001-09-09T01:46:40+00:00" ∧
    S "NOW-SENTINEL" ≠ S "2001-09-09T01:46:40+00:00" :=
  ⟨rfl, by decide, by decide⟩

/-- Reduction of the numeric branch of `_normalize_date` for nonzero
input. -/
theorem normalize_date_int (now : PyStr) (ts : Int) (h : ts ≠ 0) :
    normalize_date now (PyVal.vInt ts) =
      if 1000000000000 < ts then
        if 1000 * twoPow1024 ≤ ts then Except.error PyErr.overflowError
        else if 1000 * 2 ^ 63 ≤ ts then Except.error PyErr.overflowError
        else if tsInRangeMicro (ts * 1000) then Except.ok (epochMicroToIso (ts * 1000))
        else Except.ok now
      else
        if ts < -9223372036854775808 then Except.error PyErr.overflowError
        else if tsInRangeMicro (ts * 1000000) then Except.ok (epochMicroToIso (ts * 1000000))
        else Except.ok now := by
  unfold normalize_date
  rw [if_neg (by simp [pyTruthy, h])]
  rfl

/-- C7 (amended): a nonzero numeric `posted_at` is epoch seconds when
`ts ≤ 10^12` (the comparison is signed and strict, not magnitude-based)
and milliseconds divided by 1000 when `ts > 10^12`; in the millisecond
range, an in-calendar value converts, an out-of-calendar value below the
C `time_t` range falls back to the current time, and a value at or
beyond `1000 * 2^63` raises an uncaught `OverflowError` from
`fromtimestamp`; `1700000000` and `1700000000000` both normalize to
2023-11-14; `"garbage"` normalizes to the current time. -/
theorem C7_numeric_date_rule :
    (∀ (now : PyStr) (ts : Int), ts ≠ 0 → -9223372036854775808 ≤ ts →
       ts ≤ 1000000000000 →
       normalize_date now (PyVal.vInt ts) =
         if tsInRangeMicro (ts * 1000000) then Except.ok (epochMicroToIso (ts * 1000000))
         else Except.ok now) ∧
    (∀ (now : PyStr) (ts : Int), 1000000000000 < ts → ts < 9223372036854774784000 →
       (1000 : Int) ∣ ts →
       normalize_date now (PyVal.vInt ts) =
         if tsInRangeMicro (ts * 1000) then Except.ok (epochMicroToIso (ts * 1000))
         else Except.ok now) ∧
    (∀ (now : PyStr) (ts : Int), 9223372036854775808000 ≤ ts →
       normalize_date now (PyVal.vInt ts) = Except.error PyErr.overflowError) ∧
    (∀ now : PyStr, normalize_date now (PyVal.vInt 1700000000) =
       Except.ok (S "2023-11-14T22:13:20+00:00")) ∧
    (∀ now : PyStr, normalize_date now (PyVal.vInt 1700000000000) =
       Except.ok (S "2023-11-14T22:13:20+00:00")) ∧
    (∀ now : PyStr, normalize_date now (PyVal.vStr (S "garbage")) = Except.ok now) := by
  have h63 : (1000 * (2 : Int) ^ 63) = 9223372036854775808000 := by norm_num
  have h1024 : (9223372036854775808000 : Int) < 1000 * twoPow1024 := by
    norm_num [twoPow1024]
  refine ⟨?_, ?_, ?_, fun now => rfl, fun now => rfl, fun now => rfl⟩
  · intro now ts h0 hlo hhi
    rw [normalize_date_int now ts h0, if_neg (by omega), if_neg (by omega)]
  · intro now ts hlo hhi _
    rw [normalize_date_int now ts (by omega), if_pos hlo,
      if_neg (by omega), if_neg (by rw [h63]; omega)]
  · intro now ts hts
    rw [normalize_date_int now ts (by omega), if_pos (by omega)]
    by_cases hbig : 1000 * twoPow1024 ≤ ts
    · rw [if_pos hbig]
    · rw [if_neg hbig, if_pos (by rw [h63]; omega)]

/-- C7 witness: the three numeric branch rules applied at concrete
inputs — the two 2023-11-14 anchors and the time_t overflow at
`10^22`. -/
theorem C7_numeric_date_rule_witness :
    (normalize_date (S "W") (PyVal.vInt 1700000000) =
       if tsInRangeMicro (1700000000 * 1000000) then
         Except.ok (epochMicroToIso (1700000000 * 1000000))
       else Except.ok (S "W")) ∧
    (normalize_date (S "W") (PyVal.vInt 1700000000000) =
       if tsInRangeMicro (1700000000000 * 1000) then
         Except.ok (epochMicroToIso (1700000000000 * 1000))
       else Except.ok (S "W")) ∧
    normalize_date (S "W") (PyVal.vInt (10 ^ 22)) = Except.error PyErr.overflowError :=
  ⟨C7_numeric_date_rule.1 (S "W") 1700000000 (by decide) (by decide) (by decide),
   C7_numeric_date_rule.2.1 (S "W") 1700000000000 (by decide) (by decide) (by decide),
   C7_numeric_date_rule.2.2.1 (S "W") (10 ^ 22) (by norm_num)⟩

/-- C8 counterexample: the source also matches `"sr "` (and `"jr "`),
which the spec's five keyword sets omit, so `"Sr Engineer"` infers
`Senior` in the code but `Mid` under the spec's sets; the normalizer
output shows the same. -/
theorem C8_experience_keywords_counterexample :
    infer_experience (S "Sr Engineer") = S "Senior" ∧
    specInferExperience (S "Sr Engineer") = S "Mid" ∧
    (buildJob (S "T0") ({ title := S "Sr Engineer" } : JobDetailR)).experience_level =
      S "Senior" ∧
    (S "Senior" : PyStr) ≠ S "Mid" :=
  ⟨by decide, by decide, by decide, by decide⟩

/-- C8 (amended): experience inference is the spec's five ordered
keyword sets with `"sr "` added to the Senior set and `"jr "` to the
Junior set, first match wins, default `Mid`; the normalizer applies it
exactly when the raw detail supplies no experience level; priority gives
`Senior` for "Senior Manager of Engineering" and an unmatched title
infers `Mid`. -/
theorem C8_experience_inference :
    (∀ t : PyStr, infer_experience t = specInferExperienceAmended t) ∧
    (∀ (now : PyStr) (d : JobDetailR) (r : CanonJob), normalize_job now d = Except.ok r →
       d.experience_level = [] →
       r.experience_level = infer_experience (clean_title d.title)) ∧
    infer_experience (S "Senior Manager of Engineering") = S "Senior" ∧
    infer_experience (S "Quantum Basket Weaving") = S "Mid" := by
  refine ⟨fun t => rfl, ?_, by decide, by decide⟩
  intro now d r h hemp
  unfold normalize_job at h
  cases heq : normalize_date now d.posted_at with
  | error e =>
    rw [heq] at h
    exact absurd h (by simp)
  | ok iso =>
    rw [heq] at h
    simp only [Except.ok.injEq] at h
    rw [← h]
    show (if d.experience_level.isEmpty then infer_experience (clean_title d.title)
          else d.experience_level) = _
    rw [hemp]
    rfl

/-- C8 witness: the normalizer wiring applied to a detail with no
experience level. -/
theorem C8_experience_inference_witness :
    (buildJob (S "T0") ({ title := S "Lead Dev" } : JobDetailR)).experience_level =
      infer_experience (clean_title (S "Lead Dev")) :=
  C8_experience_inference.2.1 (S "T0") { title := S "Lead Dev" } _ rfl rfl

/-- `replace("&amp;", "&")` is the identity on strings without `&`. -/
theorem replaceAmp_eq_self (s : PyStr) (h : ∀ c ∈ s, c ≠ '&') : replaceAmp s = s := by
  induction s with
  | nil => rfl
  | cons c t ih =>
    rw [replaceAmp.eq_def]
    split
    · rename_i heq
      injection heq with h1 _
      exact absurd h1 (h c (by simp))
    · rename_i heq
      injection heq with h1 h2
      rw [← h1, ← h2]
      rw [ih (fun x hx => h x (List.mem_cons_of_mem c hx))]
    · rename_i heq
      exact absurd heq (List.cons_ne_nil c t)

/-- A string whose lowercasing is `"programming"` survives strip and
entity decoding unchanged. -/
theorem normalize_category_programming (raw : PyStr)
    (h : pyLower raw = S "programming") : normalize_category raw = S "Engineering" := by
  have hsp_all : ∀ c ∈ S "programming", pyIsSpace c = false := by decide
  have hne : raw ≠ [] := by
    intro he
    rw [he] at h
    exact absurd h (by decide)
  have hnoamp : ∀ c ∈ raw, c ≠ '&' := by
    intro c hc he
    have hm : pyToLower c ∈ pyLower raw := List.mem_map_of_mem pyToLower hc
    rw [h, he] at hm
    exact absurd hm (by decide)
  have hspc : ∀ c ∈ raw, pyIsSpace c = false := by
    intro c hc
    have hm : pyToLower c ∈ pyLower raw := List.mem_map_of_mem pyToLower hc
    rw [h] at hm
    rw [← pyIsSpace_pyToLower]
    exact hsp_all _ hm
  have hl : lstrip raw = raw := by
    cases hr : raw with
    | nil => rfl
    | cons a t =>
      unfold lstrip
      rw [List.dropWhile_cons, if_neg (by rw [hspc a (by rw [hr]; simp)]; simp)]
  have hstrip : pyStrip raw = raw := by
    unfold pyStrip
    rw [hl]
    unfold rstrip
    cases hrev : raw.reverse with
    | nil => rw [List.reverse_eq_nil_iff.mp hrev]; rfl
    | cons b u =>
      have hb : b ∈ raw := List.mem_reverse.mp (by rw [hrev]; simp)
      rw [List.dropWhile_cons, if_neg (by rw [hspc b hb]; simp), ← hrev,
        List.reverse_reverse]
  unfold normalize_category
  rw [if_neg (by simp [hne]), hstrip, replaceAmp_eq_self raw hnoamp, h]
  decide

/-- C4 counterexample: the Normalizer itself applies no lookup table — a
category or employment type absent from the maps passes through the
normalized record unchanged instead of degrading to the default, even
though the adapters' lookup maps it to the default. -/
theorem C4_passthrough_counterexample :
    normalize_job (S "T0") detailUnmapped = Except.ok (buildJob (S "T0") detailUnmapped) ∧
    (buildJob (S "T0") detailUnmapped).category = S "banana" ∧
    (buildJob (S "T0") detailUnmapped).employment_type = S "gig" ∧
    normalize_category (S "banana") = S "Other" ∧
    normalize_employment_type (S "gig") = S "Full-time" ∧
    (S "banana" : PyStr) ≠ S "Other" :=
  ⟨rfl, by decide, by decide, by decide, by decide, by decide⟩

/-- C4 (amended): the case-insensitive lookup tables live in the
adapters (`normalize_category` / `normalize_employment_type`), which map
`"programming"` in any letter case to `Engineering` and unmapped or
empty input to the defaults; the Normalizer itself only replaces an
empty category or employment type by `Other` / `Full-time` and passes
any other value through unchanged. -/
theorem C4_category_mapping :
    (∀ (iso : PyStr) (d : JobDetailR),
       (buildJob iso d).category = pyOr d.category (S "Other") ∧
       (buildJob iso d).employment_type = pyOr d.employment_type (S "Full-time")) ∧
    (∀ raw : PyStr, pyLower raw = S "programming" →
       normalize_category raw = S "Engineering") ∧
    normalize_category (S "Programming") = S "Engineering" ∧
    normalize_category (S "banana") = S "Other" ∧
    normalize_category [] = S "Other" ∧
    normalize_employment_type [] = S "Full-time" ∧
    normalize_employment_type (S "Contractor") = S "Contract" :=
  ⟨fun iso d => ⟨rfl, rfl⟩, normalize_category_programming,
   by decide, by decide, by decide, by decide, by decide⟩

/-- C4 witness: the case-insensitive mapping applied to an uppercase
raw category. -/
theorem C4_category_mapping_witness :
    normalize_category (S "PROGRAMMING") = S "Engineering" :=
  C4_category_mapping.2.1 (S "PROGRAMMING") (by decide)

/-- C9 counterexample: the date fallback substitutes the current time,
so normalizing the same raw detail (posted_at `"garbage"`) at two
different clock readings yields different records — posted_at differs. -/
theorem C9_determinism_counterexample :
    normalize_job (S "2024-05-01T00:00:00+00:00") detailGarbageDate ≠
      normalize_job (S "2024-05-02T00:00:00+00:00") detailGarbageDate := by
  intro h
  have h2 := congrArg
    (fun x => match x with
      | Except.ok r => CanonJob.posted_at r
      | Except.error _ => ([] : PyStr)) h
  exact absurd h2 (by decide)

/-- The ISO-prefixed string branch returns the string itself, with no
dependence on the clock. -/
theorem normalize_date_iso_str (now s : PyStr) (h : isoPrefixMatch s = true) :
    normalize_date now (PyVal.vStr s) = Except.ok s := by
  have hne : s ≠ [] := by
    intro he
    rw [he] at h
    exact absurd h (by decide)
  unfold normalize_date
  rw [if_neg (by simp [pyTruthy, hne])]
  show (if isoPrefixMatch s = true then Except.ok s else _) = Except.ok s
  rw [if_pos h]

/-- C9 (amended): normalization is a deterministic function of the raw
record and the clock reading; every output field except `posted_at` is
independent of the clock, and a `posted_at` string already starting with
`YYYY-MM-DD` makes the whole output clock-independent.  Only the date
fallback (unparseable or out-of-range `posted_at`) injects the current
time, so two calls at different times can differ in `posted_at` alone. -/
theorem C9_determinism :
    (∀ (n1 n2 : PyStr) (d : JobDetailR) (s : PyStr), d.posted_at = PyVal.vStr s →
       isoPrefixMatch s = true → normalize_job n1 d = normalize_job n2 d) ∧
    (∀ (n1 n2 : PyStr) (d : JobDetailR) (r1 r2 : CanonJob),
       normalize_job n1 d = Except.ok r1 → normalize_job n2 d = Except.ok r2 →
       r1 = { r2 with posted_at := r1.posted_at }) := by
  constructor
  · intro n1 n2 d s hp hiso
    unfold normalize_job
    rw [hp, normalize_date_iso_str n1 s hiso, normalize_date_iso_str n2 s hiso]
  · intro n1 n2 d r1 r2 h1 h2
    unfold normalize_job at h1 h2
    cases heq1 : normalize_date n1 d.posted_at with
    | error e =>
      rw [heq1] at h1
      exact absurd h1 (by simp)
    | ok iso1 =>
      rw [heq1] at h1
      cases heq2 : normalize_date n2 d.posted_at with
      | error e =>
        rw [heq2] at h2
        exact absurd h2 (by simp)
      | ok iso2 =>
        rw [heq2] at h2
        simp only [Except.ok.injEq] at h1 h2
        rw [← h1, ← h2]
        rfl

/-- C9 witness: clock-independence applied to an ISO-prefixed
`posted_at`, and the frame fact applied to the garbage-date detail. -/
theorem C9_determinism_witness :
    normalize_job (S "T1") ({ posted_at := PyVal.vStr (S "2024-05-06 approx") } : JobDetailR) =
      normalize_job (S "T2") ({ posted_at := PyVal.vStr (S "2024-05-06 approx") } : JobDetailR) ∧
    buildJob (S "T1") detailGarbageDate =
      { buildJob (S "T2") detailGarbageDate with
        posted_at := (buildJob (S "T1") detailGarbageDate).posted_at } :=
  ⟨C9_determinism.1 (S "T1") (S "T2") { posted_at := PyVal.vStr (S "2024-05-06 approx") }
      (S "2024-05-06 approx") rfl (by decide),
   C9_determinism.2 (S "T1") (S "T2") detailGarbageDate _ _ rfl rfl⟩

/-- The emptiness disjunct of the first and third quality rules is
absorbed by the length threshold. -/
theorem isEmpty_or_lt (l : PyStr) (n : Nat) (hn : 0 < n) :
    (l.isEmpty || decide (l.length < n)) = decide (l.length < n) := by
  cases l with
  | nil =>
    simp only [List.isEmpty_nil, List.length_nil, Bool.true_or]
    exact (decide_eq_true hn).symm
  | cons a t => simp

/-- Emptiness of the Python `or` of two strings. -/
theorem pyOr_isEmpty (f o : PyStr) : (pyOr f o).isEmpty = (f.isEmpty && o.isEmpty) := by
  unfold pyOr
  cases f <;> simp

/-- C6: the quality gate equals the spec's five-rule reference predicate
evaluated in order with short-circuit, it accepts with reason `"OK"`
exactly when all five conditions hold, and the 49/50-character
description and 4/5-character title boundaries behave as claimed. -/
theorem C6_quality_gate :
    (∀ j : QualityIn, passes_quality j = specQuality j) ∧
    (∀ j : QualityIn, passes_quality j = (true, S "OK") ↔
       (5 ≤ (pyStrip j.title).length ∧ pyStrip j.company_name ≠ [] ∧
        50 ≤ (pyStrip j.description_text).length ∧
        (j.apply_url_final ≠ [] ∨ j.apply_url_original ≠ [] ∨ j.canonical_url ≠ []) ∧
        ∀ w ∈ spamIndicators, containsSub (pyLower (pyStrip j.title)) w = false)) ∧
    (passes_quality qualityDesc49).1 = false ∧
    passes_quality qualityDesc50 = (true, S "OK") ∧
    (passes_quality qualityTitle4).1 = false ∧
    passes_quality qualityTitle5 = (true, S "OK") := by
  refine ⟨?_, ?_, by decide, by decide, by decide, by decide⟩
  · intro j
    simp only [passes_quality, specQuality, isEmpty_or_lt _ 5 (by omega),
      isEmpty_or_lt _ 50 (by omega), pyOr_isEmpty, decide_eq_true_eq, Bool.and_assoc]
  · intro j
    simp only [passes_quality, isEmpty_or_lt _ 5 (by omega),
      isEmpty_or_lt _ 50 (by omega), pyOr_isEmpty, Bool.and_assoc]
    split_ifs with h1 h2 h3 h4 h5
    · refine iff_of_false (by simp) ?_
      rintro ⟨c1, c2, c3, c4, c5⟩
      rw [decide_eq_true_eq] at h1
      omega
    · refine iff_of_false (by simp) ?_
      rintro ⟨c1, c2, c3, c4, c5⟩
      exact absurd (List.isEmpty_iff.mp h2) c2
    · refine iff_of_false (by simp) ?_
      rintro ⟨c1, c2, c3, c4, c5⟩
      rw [decide_eq_true_eq] at h3
      omega
    · refine iff_of_false (by simp) ?_
      rintro ⟨c1, c2, c3, c4, c5⟩
      simp only [Bool.and_eq_true, List.isEmpty_iff] at h4
      rcases c4 with hc | hc | hc
      · exact absurd h4.1 hc
      · exact absurd h4.2.1 hc
      · exact absurd h4.2.2 hc
    · refine iff_of_false (by simp) ?_
      rintro ⟨c1, c2, c3, c4, c5⟩
      rcases List.any_eq_true.mp h5 with ⟨w, hw, hcw⟩
      rw [c5 w hw] at hcw
      exact absurd hcw (by simp)
    · refine iff_of_true rfl ?_
      rw [decide_eq_true_eq, Nat.not_lt] at h1 h3
      refine ⟨h1, ?_, h3, ?_, ?_⟩
      · intro he
        rw [List.isEmpty_iff] at h2
        exact h2 he
      · by_cases hf : j.apply_url_final = []
        · by_cases ho : j.apply_url_original = []
          · by_cases hc : j.canonical_url = []
            · exact absurd (by rw [hf, ho, hc]; rfl) h4
            · exact Or.inr (Or.inr hc)
          · exact Or.inr (Or.inl ho)
        · exact Or.inl hf
      · intro w hw
        by_contra hcw
        rw [Bool.not_eq_false] at hcw
        exact h5 (List.any_eq_true.mpr ⟨w, hw, hcw⟩)

/-- C3 counterexample: `check_duplicate` passes no `exclude_id`, so a
job that already carries the persisted id `J1` is matched against its own
row and reported as its own duplicate. -/
theorem C3_self_duplicate_counterexample :
    check_duplicate storeJ1 dedupSelf = some (S "J1", S "src1") ∧
    dedupSelf.id = some (S "J1") ∧
    rowJ1.id = S "J1" ∧ rowJ1.status = S "active" ∧
    rowJ1.fingerprint_hash = some (S "FP") ∧
    storeJ1 = [rowJ1] :=
  ⟨by decide, by decide, by decide, by decide, by decide, rfl⟩

/-- C3 (amended): the deduper's duplicate check consults only the
fingerprint — it returns a match exactly when the fingerprint is
non-empty and some active row with that fingerprint exists, with no
exclusion of the job's own persisted id (that row may be its own); the
underlying store lookup `check_duplicate_fingerprint` does exclude a row
when a non-empty `exclude_id` is passed, but the deduper never passes
one. -/
theorem C3_duplicate_check :
    (∀ (db : List Row) (jd : DedupJob), (check_duplicate db jd).isSome ↔
       (jd.fingerprint_hash ≠ [] ∧
        ∃ r ∈ db, r.fingerprint_hash = some jd.fingerprint_hash ∧
          r.status = S "active")) ∧
    (∀ (db : List Row) (fp e : PyStr), (check_duplicate_fingerprint db fp e).isSome ↔
       ∃ r ∈ db, r.fingerprint_hash = some fp ∧ r.status = S "active" ∧
         (e = [] ∨ r.id ≠ e)) := by
  constructor
  · intro db jd
    unfold check_duplicate
    by_cases he : jd.fingerprint_hash.isEmpty
    · rw [if_pos he]
      simp only [Option.isSome_none, Bool.false_eq_true, false_iff, not_and]
      intro hne
      exact absurd (List.isEmpty_iff.mp he) hne
    · rw [if_neg he]
      unfold check_duplicate_fingerprint
      rw [if_neg (by simp)]
      rw [Option.isSome_map']
      rw [List.find?_isSome]
      simp only [Bool.and_eq_true, beq_iff_eq]
      constructor
      · rintro ⟨r, hr, hfp, hst⟩
        exact ⟨fun hx => he (by rw [hx]; rfl), r, hr, hfp, hst⟩
      · rintro ⟨hne, r, hr, hfp, hst⟩
        exact ⟨r, hr, hfp, hst⟩
  · intro db fp e
    unfold check_duplicate_fingerprint
    by_cases he : e.isEmpty
    · rw [if_neg (by simp [he])]
      rw [Option.isSome_map', List.find?_isSome]
      simp only [Bool.and_eq_true, beq_iff_eq]
      have heq : e = [] := List.isEmpty_iff.mp he
      constructor
      · rintro ⟨r, hr, hfp, hst⟩
        exact ⟨r, hr, hfp, hst, Or.inl heq⟩
      · rintro ⟨r, hr, hfp, hst, _⟩
        exact ⟨r, hr, hfp, hst⟩
    · rw [if_pos (by simp [he])]
      rw [Option.isSome_map', List.find?_isSome]
      simp only [Bool.and_eq_true, beq_iff_eq, bne_iff_ne]
      have hne : e ≠ [] := fun hx => he (by rw [hx]; rfl)
      constructor
      · rintro ⟨r, hr, ⟨hfp, hid⟩, hst⟩
        exact ⟨r, hr, hfp, hst, Or.inr hid⟩
      · rintro ⟨r, hr, hfp, hst, hid⟩
        rcases hid with hid | hid
        · exact absurd hid hne
        · exact ⟨r, hr, ⟨hfp, hid⟩, hst⟩


/-- Reduction of `upsert_job` when the key lookup finds a row. -/
theorem upsert_job_found (now fresh : PyStr) (db : List Row) (jd : JobData) (r : Row)
    (hf : findByKey db jd = some r) :
    upsert_job now fresh db jd =
      if hasMutableField jd then
        (r.id, db.map (fun r2 => if r2.id == r.id then updateRow now jd r2 else r2))
      else (r.id, db) := by
  unfold upsert_job
  rw [hf]

/-- Reduction of `upsert_job` when the key is unseen. -/
theorem upsert_job_new (now fresh : PyStr) (db : List Row) (jd : JobData)
    (hf : findByKey db jd = Option.none) :
    upsert_job now fresh db jd =
      (upsertId fresh jd, db ++ [insertRow now (upsertId fresh jd) jd]) := by
  unfold upsert_job
  rw [hf]

/-- Updating rows in place never changes a row's natural key. -/
theorem countKey_map_update (db : List Row) (now : PyStr) (jd : JobData)
    (rid s sj : PyStr) :
    countKey (db.map (fun r2 => if r2.id == rid then updateRow now jd r2 else r2)) s sj =
      countKey db s sj := by
  unfold countKey
  rw [List.filter_map]
  rw [List.length_map]
  have hcong : ∀ r2 ∈ db,
      ((fun r => r.source == s && r.source_job_id == sj) ∘
        (fun r2 => if r2.id == rid then updateRow now jd r2 else r2)) r2 =
      (fun r => r.source == s && r.source_job_id == sj) r2 := by
    intro r2 _
    by_cases h2 : r2.id == rid
    · simp only [Function.comp_apply, if_pos h2]
      rfl
    · simp only [Function.comp_apply, if_neg h2]
  rw [List.filter_congr hcong]

/-- One upsert leaves exactly one row for the payload's key. -/
theorem upsert_countKey (now fresh : PyStr) (db : List Row) (jd : JobData)
    (h : countKey db jd.source jd.source_job_id ≤ 1) :
    countKey (upsert_job now fresh db jd).2 jd.source jd.source_job_id = 1 := by
  cases hf : findByKey db jd with
  | some r =>
    have hpred := List.find?_some hf
    have hrmem : r ∈ db := List.mem_of_find?_eq_some hf
    have hge : 1 ≤ countKey db jd.source jd.source_job_id := by
      unfold countKey
      have hm : r ∈ db.filter (fun r => r.source == jd.source &&
          r.source_job_id == jd.source_job_id) :=
        List.mem_filter.mpr ⟨hrmem, hpred⟩
      exact List.length_pos.mpr (List.ne_nil_of_mem hm)
    rw [upsert_job_found now fresh db jd r hf]
    by_cases hmf : hasMutableField jd
    · rw [if_pos hmf]
      show countKey (db.map _) _ _ = 1
      rw [countKey_map_update]
      omega
    · rw [if_neg hmf]
      show countKey db _ _ = 1
      omega
  | none =>
    have hz : countKey db jd.source jd.source_job_id = 0 := by
      unfold countKey
      rw [List.length_eq_zero, List.filter_eq_nil_iff]
      intro r hr hp
      exact List.find?_eq_none.mp hf r hr hp
    rw [upsert_job_new now fresh db jd hf]
    show countKey (db ++ [insertRow now _ jd]) _ _ = 1
    unfold countKey at hz ⊢
    rw [List.filter_append, List.length_append, hz]
    rw [List.filter_cons, if_pos (by simp [insertRow])]
    rfl

/-- A sequence of upserts of one key, starting from a store holding at
most one row for it, ends with exactly one row for it. -/
theorem upsertSeq_countKey (steps : List (PyStr × PyStr × JobData)) (db : List Row)
    (s sj : PyStr) (hk : ∀ x ∈ steps, x.2.2.source = s ∧ x.2.2.source_job_id = sj)
    (hc : countKey db s sj ≤ 1) (hne : steps ≠ []) :
    countKey (upsertSeq db steps) s sj = 1 := by
  induction steps generalizing db with
  | nil => exact absurd rfl hne
  | cons x rest ih =>
    obtain ⟨hs, hsj⟩ := hk x (by simp)
    have h1 : countKey (upsert_job x.1 x.2.1 db x.2.2).2 s sj = 1 := by
      rw [← hs, ← hsj]
      exact upsert_countKey x.1 x.2.1 db x.2.2 (by rw [hs, hsj]; exact hc)
    show countKey (upsertSeq (upsert_job x.1 x.2.1 db x.2.2).2 rest) s sj = 1
    by_cases hrest : rest = []
    · rw [hrest]
      exact h1
    · exact ih _ (fun z hz => hk z (List.mem_cons_of_mem x hz)) (by omega) hrest

/-- C5: upsert keyed by (source, source_job_id).  Any non-empty sequence
of upserts sharing one key leaves exactly one row for it; the update
path returns the existing row id and rewrites only rows carrying it,
each updated row keeping its `id`, `created_at` and key while present
payload fields overwrite and `updated_at`/`last_checked_at` take the
current time; an unseen key appends one row whose id is the freshly
generated one (when the payload carries no id) and whose `created_at`
is the current time. -/
theorem C5_upsert_semantics :
    (∀ (db : List Row) (steps : List (PyStr × PyStr × JobData)) (s sj : PyStr),
       steps ≠ [] → (∀ x ∈ steps, x.2.2.source = s ∧ x.2.2.source_job_id = sj) →
       countKey db s sj ≤ 1 → countKey (upsertSeq db steps) s sj = 1) ∧
    (∀ (now fresh : PyStr) (db : List Row) (jd : JobData) (r : Row),
       findByKey db jd = some r → hasMutableField jd = true →
       (upsert_job now fresh db jd).1 = r.id ∧
       (upsert_job now fresh db jd).2 =
         db.map (fun r2 => if r2.id == r.id then updateRow now jd r2 else r2)) ∧
    (∀ (now : PyStr) (jd : JobData) (r2 : Row),
       (updateRow now jd r2).id = r2.id ∧
       (updateRow now jd r2).created_at = r2.created_at ∧
       (updateRow now jd r2).source = r2.source ∧
       (updateRow now jd r2).source_job_id = r2.source_job_id ∧
       (updateRow now jd r2).updated_at = now ∧
       (updateRow now jd r2).last_checked_at = now ∧
       (updateRow now jd r2).title = (jd.title <|> r2.title) ∧
       (updateRow now jd r2).company_name = (jd.company_name <|> r2.company_name) ∧
       (updateRow now jd r2).company_logo_url = (jd.company_logo_url <|> r2.company_logo_url) ∧
       (updateRow now jd r2).company_domain = (jd.company_domain <|> r2.company_domain) ∧
       (updateRow now jd r2).description_html = (jd.description_html <|> r2.description_html) ∧
       (updateRow now jd r2).description_text = (jd.description_text <|> r2.description_text) ∧
       (updateRow now jd r2).employment_type = jd.employment_type.getD r2.employment_type ∧
       (updateRow now jd r2).remote_scope = jd.remote_scope.getD r2.remote_scope ∧
       (updateRow now jd r2).location_text = (jd.location_text <|> r2.location_text) ∧
       (updateRow now jd r2).category = (jd.category <|> r2.category) ∧
       (updateRow now jd r2).experience_level = (jd.experience_level <|> r2.experience_level) ∧
       (updateRow now jd r2).salary_min = (jd.salary_min <|> r2.salary_min) ∧
       (updateRow now jd r2).salary_max = (jd.salary_max <|> r2.salary_max) ∧
       (updateRow now jd r2).salary_currency = jd.salary_currency.getD r2.salary_currency ∧
       (updateRow now jd r2).salary_period = jd.salary_period.getD r2.salary_period ∧
       (updateRow now jd r2).salary_text = (jd.salary_text <|> r2.salary_text) ∧
       (updateRow now jd r2).posted_at = (jd.posted_at <|> r2.posted_at) ∧
       (updateRow now jd r2).apply_url_original = (jd.apply_url_original <|> r2.apply_url_original) ∧
       (updateRow now jd r2).apply_url_final = (jd.apply_url_final <|> r2.apply_url_final) ∧
       (updateRow now jd r2).canonical_url = (jd.canonical_url <|> r2.canonical_url) ∧
       (updateRow now jd r2).status = jd.status.getD r2.status ∧
       (updateRow now jd r2).fingerprint_hash = (jd.fingerprint_hash <|> r2.fingerprint_hash) ∧
       (updateRow now jd r2).tags = (jd.tags <|> r2.tags)) ∧
    (∀ (now fresh : PyStr) (db : List Row) (jd : JobData),
       findByKey db jd = Option.none → jd.id = Option.none →
       upsert_job now fresh db jd = (fresh, db ++ [insertRow now fresh jd]) ∧
       (insertRow now fresh jd).id = fresh ∧
       (insertRow now fresh jd).created_at = now ∧
       (insertRow now fresh jd).source = jd.source ∧
       (insertRow now fresh jd).source_job_id = jd.source_job_id) := by
  refine ⟨?_, ?_, ?_, ?_⟩
  · intro db steps s sj hne hk hc
    exact upsertSeq_countKey steps db s sj hk hc hne
  · intro now fresh db jd r hf hmf
    rw [upsert_job_found now fresh db jd r hf, if_pos hmf]
    exact ⟨rfl, rfl⟩
  · intro now jd r2
    exact ⟨rfl, rfl, rfl, rfl, rfl, rfl, rfl, rfl, rfl, rfl, rfl, rfl, rfl, rfl,
      rfl, rfl, rfl, rfl, rfl, rfl, rfl, rfl, rfl, rfl, rfl, rfl, rfl, rfl, rfl⟩
  · intro now fresh db jd hf hid
    have hi : upsertId fresh jd = fresh := by
      unfold upsertId
      rw [hid]
    rw [upsert_job_new now fresh db jd hf, hi]
    exact ⟨rfl, rfl, rfl, rfl, rfl⟩

/-- C5 witness: two same-key upserts on an empty store end with one row;
the update path on a one-row store; a fresh insert on the empty store. -/
theorem C5_upsert_semantics_witness :
    countKey (upsertSeq [] [(S "t1", S "J1", payloadA), (S "t2", S "J2", payloadB)])
      (S "src1") (S "k1") = 1 ∧
    (upsert_job (S "t3") (S "J3") storeJ1 payloadB).1 = rowJ1.id ∧
    (upsert_job (S "t3") (S "J3") storeJ1 payloadB).2 =
      storeJ1.map (fun r2 => if r2.id == rowJ1.id then updateRow (S "t3") payloadB r2
        else r2) ∧
    upsert_job (S "t4") (S "J4") [] payloadA =
      (S "J4", [] ++ [insertRow (S "t4") (S "J4") payloadA]) :=
  ⟨C5_upsert_semantics.1 [] [(S "t1", S "J1", payloadA), (S "t2", S "J2", payloadB)]
      (S "src1") (S "k1") (List.cons_ne_nil _ _) (by decide) (by decide),
   (C5_upsert_semantics.2.1 (S "t3") (S "J3") storeJ1 payloadB rowJ1
      (by decide) (by decide)).1,
   (C5_upsert_semantics.2.1 (S "t3") (S "J3") storeJ1 payloadB rowJ1
      (by decide) (by decide)).2,
   (C5_upsert_semantics.2.2.2 (S "t4") (S "J4") [] payloadA rfl rfl).1⟩
